import Mathlib

/-!
# Verification of the postgres-ha supervisors

This development shallowly embeds the cluster-membership supervisors of the
postgres-ha repository (the etcd bootstrap supervisor, the Patroni runner,
the post-bootstrap credential reader and the HAProxy config synthesizer)
and proves properties of the embedded code.

Rust `&str`/`String` values are modelled as `List Char` (`Str`): every
string operation used by the sources (`split`, `splitn`, `trim`,
`trim_start`, `trim_start_matches`, `starts_with`, `contains`, `replace`,
`lines`, `format!` concatenation) is defined below with the semantics of
the corresponding Rust function.  `HashMap<String, String>` values are
modelled as association lists in insertion order; lookups take the last
binding (Rust `collect` semantics: later duplicate keys overwrite).
Filesystem and subprocess effects are modelled by oracles: a record of the
results the environment would return, passed to the embedded functions,
which additionally return the list of mutating actions they performed.
-/

set_option maxHeartbeats 4000000
set_option maxRecDepth 8000
set_option linter.unusedVariables false

/-- Rust strings, modelled as lists of characters. -/
abbrev Str := List Char

namespace RustStr

/-- Rust `str::splitn(2, sep)`: split at the first occurrence of `sep` only.
Returns the prefix before `sep` and, when `sep` occurs, the remainder. -/
def splitFirst (sep : Char) : Str → Str × Option Str
  | [] => ([], none)
  | c :: rest =>
    if c = sep then ([], some rest)
    else
      let r := splitFirst sep rest
      (c :: r.1, r.2)

/-- Rust `str::split(sep)` for a one-character pattern (`List.splitOn` has
exactly the Rust semantics: `"".split(c) = [""]`, separators at the ends
produce empty pieces). -/
def split (sep : Char) (s : Str) : List Str := s.splitOn sep

/-- Rust `str::replace(pat, rep)`: replace every non-overlapping occurrence
of `pat`, scanning left to right. -/
def replaceAll (pat rep : Str) : Str → Str
  | [] => []
  | c :: rest =>
    if h : pat ≠ [] ∧ pat.isPrefixOf (c :: rest) then
      rep ++ replaceAll pat rep ((c :: rest).drop pat.length)
    else
      c :: replaceAll pat rep rest
termination_by s => s.length
decreasing_by
  · simp only [List.length_drop, List.length_cons]
    have hp : 1 ≤ pat.length := by
      cases hpat : pat with
      | nil => exact absurd hpat h.1
      | cons a l => simp
    omega
  · simp

/-- Lexicographic strict order on strings by character value
(Rust `Ord` on `str`; UTF-8 byte order coincides with code-point order). -/
def strLt : Str → Str → Bool
  | [], [] => false
  | [], _ :: _ => true
  | _ :: _, [] => false
  | a :: as, b :: bs =>
    if a < b then true
    else if b < a then false
    else strLt as bs

/-- Rust `str::trim_start`: drop leading whitespace. -/
def trimStart : Str → Str
  | [] => []
  | c :: rest => if c.isWhitespace then trimStart rest else c :: rest

/-- Rust `str::trim_end`: drop trailing whitespace. -/
def trimEnd (s : Str) : Str := ((trimStart s.reverse)).reverse

/-- Rust `str::trim`. -/
def trim (s : Str) : Str := trimEnd (trimStart s)

/-- Rust `str::trim_start_matches(c)`: drop every leading occurrence of `c`. -/
def trimStartMatches (m : Char) : Str → Str
  | [] => []
  | c :: rest => if c = m then trimStartMatches m rest else c :: rest

/-- Rust `str::trim_end_matches(c)`. -/
def trimEndMatches (m : Char) (s : Str) : Str :=
  (trimStartMatches m s.reverse).reverse

/-- Rust `str::trim_matches(c)`: trim runs of `c` from both ends. -/
def trimMatches (m : Char) (s : Str) : Str :=
  trimEndMatches m (trimStartMatches m s)

/-- Rust `str::contains(pat)` for a string pattern: `pat` occurs as a
contiguous substring of `s` (prefix at some position, including the end). -/
def containsStr : Str → Str → Bool
  | [], pat => pat.isEmpty
  | c :: rest, pat => pat.isPrefixOf (c :: rest) || containsStr rest pat

/-- Split by a multi-character pattern (Rust `str::split(pat)` for `&str`
patterns, as used with `"ETCD_INITIAL_CLUSTER="`).  `pat` is assumed
non-empty by all callers. -/
def splitPat (pat : Str) : Str → List Str
  | [] => [[]]
  | c :: rest =>
    if h : pat ≠ [] ∧ pat.isPrefixOf (c :: rest) then
      [] :: splitPat pat ((c :: rest).drop pat.length)
    else
      match splitPat pat rest with
      | [] => [[c]]
      | r :: rs => (c :: r) :: rs
termination_by s => s.length
decreasing_by
  · simp only [List.length_drop, List.length_cons]
    have hp : 1 ≤ pat.length := by
      cases hpat : pat with
      | nil => exact absurd hpat h.1
      | cons a l => simp
    omega
  · simp

/-- One line of output, as produced by Rust's `str::lines`: strip one
trailing `'\r'` if present. -/
def stripCR (l : Str) : Str :=
  if l.getLast? = some '\r' then l.dropLast else l

/-- Rust `str::lines()`: split on `'\n'`, drop a final empty piece
(a trailing newline does not produce an empty last line), and strip a
trailing `'\r'` from each line. -/
def rustLines (s : Str) : List Str :=
  let ps := split '\n' s
  let ps := if ps.getLast? = some [] then ps.dropLast else ps
  ps.map stripCR

/-- Rust `[String]::join(sep)`. -/
def joinSep (sep : Str) : List Str → Str
  | [] => []
  | [x] => x
  | x :: xs => x ++ sep ++ joinSep sep xs

/-- Join lines with `'\n'` after every line (the shape of the Rust
multi-line `format!` templates, which end in a newline). -/
def joinLines (ls : List Str) : Str :=
  ls.foldr (fun l acc => l ++ '\n' :: acc) []

end RustStr

open RustStr

/-! ## Basic facts about the string primitives -/

theorem splitFirst_some (sep : Char) (s : Str) :
    ∀ n u, splitFirst sep s = (n, some u) → s = n ++ sep :: u ∧ sep ∉ n := by
  induction s with
  | nil => intro n u h; simp [splitFirst] at h
  | cons c rest ih =>
    intro n u h
    by_cases hc : c = sep
    · rw [splitFirst, if_pos hc, Prod.mk.injEq] at h
      obtain ⟨h1, h2⟩ := h
      subst h1
      subst hc
      simp only [Option.some.injEq] at h2
      subst h2
      exact ⟨rfl, by simp⟩
    · rw [splitFirst, if_neg hc] at h
      rcases h3 : splitFirst sep rest with ⟨pre, tail⟩
      rw [h3, Prod.mk.injEq] at h
      obtain ⟨h1, h2⟩ := h
      subst h1
      cases tail with
      | none => simp at h2
      | some u2 =>
        simp only [Option.some.injEq] at h2
        subst h2
        obtain ⟨hr1, hr2⟩ := ih pre u2 h3
        refine ⟨by rw [hr1]; rfl, ?_⟩
        simp only [List.mem_cons, not_or]
        exact ⟨fun he => hc he.symm, hr2⟩

theorem splitFirst_append (sep : Char) (n u : Str) (hn : sep ∉ n) :
    splitFirst sep (n ++ sep :: u) = (n, some u) := by
  induction n with
  | nil => simp [splitFirst]
  | cons c pre ih =>
    simp only [List.mem_cons, not_or] at hn
    have hc : ¬ (c = sep) := fun h => hn.1 h.symm
    rw [List.cons_append, splitFirst, if_neg hc, ih hn.2]

/-- Rust `Iterator::collect::<Result<_, _>>`: map a fallible function over
a list, short-circuiting at the first error. -/
def collectE {α β γ : Type} (f : α → Except γ β) : List α → Except γ (List β)
  | [] => .ok []
  | x :: xs =>
    match f x with
    | .error e => .error e
    | .ok b =>
      match collectE f xs with
      | .error e => .error e
      | .ok bs => .ok (b :: bs)

theorem collectE_error {α β γ : Type} (f : α → Except γ β) :
    ∀ (l : List α) (a : α), a ∈ l → (∃ msg, f a = .error msg) →
      ∃ msg, collectE f l = .error msg := by
  intro l
  induction l with
  | nil => intro a ha; simp at ha
  | cons x xs ih =>
    rintro a ha ⟨msg, herr⟩
    rcases List.mem_cons.mp ha with h | h
    · subst h
      exact ⟨msg, by simp [collectE, herr]⟩
    · rcases hfx : f x with e | b
      · exact ⟨e, by simp [collectE, hfx]⟩
      · obtain ⟨m2, hm2⟩ := ih a h ⟨msg, herr⟩
        exact ⟨m2, by simp [collectE, hfx, hm2]⟩

theorem collectE_length {α β γ : Type} (f : α → Except γ β) :
    ∀ (l : List α) (r : List β), collectE f l = .ok r → r.length = l.length := by
  intro l
  induction l with
  | nil =>
    intro r h
    simp only [collectE, Except.ok.injEq] at h
    simp [← h]
  | cons x xs ih =>
    intro r h
    rcases hfx : f x with e | b
    · simp [collectE, hfx] at h
    · rcases hrest : collectE f xs with e2 | bs
      · simp [collectE, hfx, hrest] at h
      · simp only [collectE, hfx, hrest, Except.ok.injEq] at h
        subst h
        simp [ih bs hrest]

theorem collectE_mem {α β γ : Type} (f : α → Except γ β) :
    ∀ (l : List α) (r : List β), collectE f l = .ok r →
      ∀ b ∈ r, ∃ a ∈ l, f a = .ok b := by
  intro l
  induction l with
  | nil =>
    intro r h b hb
    simp only [collectE, Except.ok.injEq] at h
    subst h
    simp at hb
  | cons x xs ih =>
    intro r h b hb
    rcases hfx : f x with e | v
    · simp [collectE, hfx] at h
    · rcases hrest : collectE f xs with e2 | vs
      · simp [collectE, hfx, hrest] at h
      · simp only [collectE, hfx, hrest, Except.ok.injEq] at h
        subst h
        rcases List.mem_cons.mp hb with h2 | h2
        · subst h2; exact ⟨x, List.mem_cons_self x xs, hfx⟩
        · obtain ⟨a, ha, hfa⟩ := ih vs hrest b h2
          exact ⟨a, List.mem_cons_of_mem x ha, hfa⟩

theorem containsStr_iff_infix (s pat : Str) :
    containsStr s pat = true ↔ pat <:+: s := by
  induction s with
  | nil =>
    simp only [containsStr, List.isEmpty_iff]
    constructor
    · intro h; subst h; exact List.infix_refl []
    · intro h; exact List.eq_nil_of_infix_nil h
  | cons c rest ih =>
    simp only [containsStr, Bool.or_eq_true, List.isPrefixOf_iff_prefix, ih]
    exact (List.infix_cons_iff).symm

theorem not_infix_of_containsStr_false (s pat : Str)
    (h : containsStr s pat = false) : ¬ (pat <:+: s) := by
  intro hi
  rw [←  containsStr_iff_infix] at hi
  rw [h] at hi
  exact Bool.noConfusion hi

namespace Etcd

/-! ## etcd supervisor: configuration (`src/etcd/src/config.rs`) -/

/-- `config.rs::parse_initial_cluster`, per entry: Rust splits the entry
with `splitn(2, '=')` and requires exactly two non-empty parts.  The error
payload carries the offending entry. -/
def parseEntry (e : Str) : Except Str (Str × Str) :=
  match splitFirst '=' e with
  | (n, some u) => if n ≠ [] ∧ u ≠ [] then .ok (n, u) else .error e
  | (_, none) => .error e

/-- `config.rs::parse_initial_cluster`: split the descriptor on `','` and
parse every entry; any malformed entry is an error (`collect` over
`Result` short-circuits).  The resulting `HashMap` is modelled as the
association list of entries in order. -/
def parse_initial_cluster (s : Str) : Except Str (List (Str × Str)) :=
  collectE parseEntry (split ',' s)

/-- `HashMap::get`, for a map built by `collect` from `cl`:
the last binding of a key wins. -/
def hmGet (cl : List (Str × Str)) (k : Str) : Option Str :=
  (cl.reverse.find? (fun p => p.1 == k)).map (·.2)

/-- `cluster.keys().min()`: the lexicographically smallest key. -/
def minKey? (cl : List (Str × Str)) : Option Str :=
  cl.foldl
    (fun acc p =>
      match acc with
      | none => some p.1
      | some m => if strLt p.1 m then some p.1 else some m)
    none

/-- `config.rs::peer_to_client_url`: rewrite the peer port to the client
port (`str::replace(":2380", ":2379")`). -/
def peer_to_client_url (u : Str) : Str :=
  replaceAll ":2380".toList ":2379".toList u

/-- `config.rs::get_bootstrap_leader`: parse, then take the minimum key. -/
def get_bootstrap_leader (s : Str) : Except Str Str :=
  match parse_initial_cluster s with
  | .error e => .error e
  | .ok cl =>
    match minKey? cl with
    | some m => .ok m
    | none => .error "ETCD_INITIAL_CLUSTER is empty".toList

/-- `config.rs::get_my_peer_url`. -/
def get_my_peer_url (s : Str) (name : Str) : Except Str (Option Str) :=
  match parse_initial_cluster s with
  | .error e => .error e
  | .ok cl => .ok (hmGet cl name)

/-- `config.rs::get_leader_endpoint`. -/
def get_leader_endpoint (s : Str) (leader : Str) : Except Str (Option Str) :=
  match parse_initial_cluster s with
  | .error e => .error e
  | .ok cl => .ok ((hmGet cl leader).map peer_to_client_url)

/-- A descriptor entry is well-formed when it is `name=url` with a
non-empty name free of `'='` and a non-empty url (the url may itself
contain `'='`; the name is the part before the first one). -/
def WellFormedEntry (e : Str) : Prop :=
  ∃ n u, n ≠ [] ∧ u ≠ [] ∧ '=' ∉ n ∧ e = n ++ '=' :: u

theorem parseEntry_ok_iff (e : Str) :
    (∃ p, parseEntry e = .ok p) ↔ WellFormedEntry e := by
  constructor
  · rintro ⟨⟨n, u⟩, hp⟩
    unfold parseEntry at hp
    rcases hs : splitFirst '=' e with ⟨n2, tail⟩
    rw [hs] at hp
    cases tail with
    | none => simp at hp
    | some u2 =>
      by_cases hne : n2 ≠ [] ∧ u2 ≠ []
      · simp only [if_pos hne] at hp
        obtain ⟨he, hfree⟩ := splitFirst_some '=' e n2 u2 hs
        exact ⟨n2, u2, hne.1, hne.2, hfree, he⟩
      · simp [if_neg hne] at hp
  · rintro ⟨n, u, hn, hu, hfree, he⟩
    subst he
    refine ⟨(n, u), ?_⟩
    unfold parseEntry
    rw [splitFirst_append '=' n u hfree]
    simp [hn, hu]

theorem parseEntry_error_of_malformed (e : Str) (h : ¬ WellFormedEntry e) :
    parseEntry e = .error e := by
  unfold parseEntry
  rcases hs : splitFirst '=' e with ⟨n, tail⟩
  cases tail with
  | none => simp
  | some u =>
    obtain ⟨he, hfree⟩ := splitFirst_some '=' e n u hs
    by_cases hne : n ≠ [] ∧ u ≠ []
    · exact absurd ⟨n, u, hne.1, hne.2, hfree, he⟩ h
    · simp [if_neg hne]

/-- C6: a descriptor containing a malformed entry is a fatal configuration
error, and a successful parse retains one binding per entry (nothing is
silently dropped). -/
theorem parse_initial_cluster_malformed_fatal (s : Str) :
    ((∃ e ∈ split ',' s, ¬ WellFormedEntry e) →
        ∃ msg, parse_initial_cluster s = .error msg) ∧
    (∀ l, parse_initial_cluster s = .ok l → l.length = (split ',' s).length) := by
  constructor
  · rintro ⟨e, he, hbad⟩
    exact collectE_error parseEntry (split ',' s) e he
      ⟨e, parseEntry_error_of_malformed e hbad⟩
  · intro l h
    exact collectE_length parseEntry (split ',' s) l h

/-- Witness for C6 at the descriptor `"a=http://a:2380,b"` whose second
entry is malformed, and at the well-formed two-entry descriptor. -/
theorem parse_initial_cluster_malformed_fatal_witness :
    (∃ msg, parse_initial_cluster "a=http://a:2380,b".toList = .error msg) ∧
    (∀ l, parse_initial_cluster "a=u,b=v".toList = .ok l →
      l.length = (split ',' "a=u,b=v".toList).length) := by
  constructor
  · refine (parse_initial_cluster_malformed_fatal "a=http://a:2380,b".toList).1
      ⟨"b".toList, by decide, ?_⟩
    intro hwf
    obtain ⟨p, hp⟩ := (parseEntry_ok_iff "b".toList).mpr hwf
    rw [show parseEntry "b".toList = .error "b".toList from rfl] at hp
    exact Except.noConfusion hp
  · exact (parse_initial_cluster_malformed_fatal "a=u,b=v".toList).2

/-! ## etcd supervisor: cluster operations
(`src/etcd/src/cluster.rs`, `src/etcd/src/bootstrap.rs`)

Filesystem and `etcdctl` effects are modelled by an `Oracle` giving the
results the environment returns: `markerExists` is
`Path::new(bootstrap_marker).exists()`, `probe e` is
`etcdctl_probe(["endpoint", "health", "--endpoints=e"])`, `memberListR e`
is `get_member_list(e)` (the parsed member list), `memberAddOut e` is the
stdout of `etcdctl(["member", "add", .., "--endpoints=e"])`,
`memberRemoveR e id` is `etcdctl(["member", "remove", id, ..])`,
`hasDataR` is `has_local_data(data_dir)` and `clearR` is
`clear_directory(data_path)`.  Functions that mutate state additionally
return the list of mutating `Action`s they performed (member removals and
directory wipes). -/

/-- `cluster.rs::MemberInfo` (one parsed line of `member list`). -/
structure MemberInfo where
  id : Str
  name : Str
  peer_url : Str
  is_learner : Bool

/-- Mutating effects performed against the cluster or the data directory. -/
inductive Action where
  | removeMember (id : Str)
  | clearData
deriving DecidableEq

/-- Results the environment returns to the supervisor during one attempt. -/
structure Oracle where
  markerExists : Bool
  dataDirExists : Bool
  probe : Str → Except Str Bool
  memberListR : Str → Except Str (List MemberInfo)
  memberAddOut : Str → Except Str Str
  memberRemoveR : Str → Str → Except Str Unit
  hasDataR : Except Str Bool
  clearR : Except Str Unit

/-- `config.rs::Config` (environment-derived configuration). -/
structure Config where
  data_dir : Str
  max_retries : Nat
  retry_delay : Nat
  peer_wait_timeout : Nat
  peer_check_interval : Nat
  etcd_name : Str
  initial_cluster : Str

/-- `get_my_peer_url(..)?.ok_or_else(..)` as used by the bootstrap paths. -/
def getMyPeerUrlE (s name : Str) : Except Str Str :=
  match get_my_peer_url s name with
  | .error e => .error e
  | .ok (some u) => .ok u
  | .ok none =>
    .error "Could not find my peer URL in ETCD_INITIAL_CLUSTER".toList

/-- Iteration core of `bootstrap.rs::check_existing_cluster`: probe every
peer other than ourselves; `etcdctl_probe` errors propagate (`?`). -/
def checkExistingGo (o : Oracle) (myName : Str) :
    List (Str × Str) → Except Str (Option Str)
  | [] => .ok none
  | (name, peerUrl) :: rest =>
    if name = myName then checkExistingGo o myName rest
    else
      match o.probe (peer_to_client_url peerUrl) with
      | .error e => .error e
      | .ok true => .ok (some (peer_to_client_url peerUrl))
      | .ok false => checkExistingGo o myName rest

/-- `bootstrap.rs::check_existing_cluster`: find a healthy remote peer's
client endpoint (recovery detection).  `HashMap` iteration is modelled in
entry order. -/
def check_existing_cluster (initial_cluster myName : Str) (o : Oracle) :
    Except Str (Option Str) :=
  match parse_initial_cluster initial_cluster with
  | .error e => .error e
  | .ok cluster => checkExistingGo o myName cluster

/-- Loop body of `cluster.rs::remove_stale_self`: remove the first member
whose name or peer URL matches ours; errors from the removal propagate. -/
def removeStaleGo (o : Oracle) (endpoint myName myUrl : Str) :
    List MemberInfo → Except Str Unit × List Action
  | [] => (.ok (), [])
  | m :: ms =>
    if m.name = myName ∨ m.peer_url = myUrl then
      match o.memberRemoveR endpoint m.id with
      | .ok _ => (.ok (), [.removeMember m.id])
      | .error e => (.error e, [.removeMember m.id])
    else removeStaleGo o endpoint myName myUrl ms

/-- `cluster.rs::remove_stale_self`. -/
def remove_stale_self (o : Oracle) (endpoint myName myUrl : Str) :
    Except Str Unit × List Action :=
  match o.memberListR endpoint with
  | .error e => (.error e, [])
  | .ok members => removeStaleGo o endpoint myName myUrl members

/-- `cluster.rs::get_current_cluster`: rebuild the descriptor from the
member list, appending ourselves when absent. -/
def get_current_cluster (o : Oracle) (endpoint myName myUrl : Str) :
    Except Str Str :=
  match o.memberListR endpoint with
  | .error e => .error e
  | .ok members =>
    let parts := (members.filter
        (fun m => !m.name.isEmpty && !m.peer_url.isEmpty)).map
        (fun m => m.name ++ '=' :: m.peer_url)
    let parts :=
      if parts.any (fun p => (myName ++ ['=']).isPrefixOf p) then parts
      else parts ++ [myName ++ '=' :: myUrl]
    .ok (joinSep [','] parts)

/-- The `ETCD_INITIAL_CLUSTER=` pattern searched for in `member add`
output. -/
def initialClusterPat : Str := "ETCD_INITIAL_CLUSTER=".toList

/-- Scan of `member add` stdout in `cluster.rs::add_self_to_cluster`:
the first line containing the pattern whose second split piece is
non-empty after trimming quotes. -/
def addOutputCluster : List Str → Option Str
  | [] => none
  | line :: rest =>
    if containsStr line initialClusterPat then
      let c := trimMatches '"' ((splitPat initialClusterPat line).getD 1 [])
      if c ≠ [] then some c else addOutputCluster rest
    else addOutputCluster rest

/-- Scan of `member add` stdout in `bootstrap.rs::bootstrap_as_leader`:
breaks at the first line containing the pattern (even when the extracted
value is empty); the empty value falls back later. -/
def leaderAddOutputCluster : List Str → Str
  | [] => []
  | line :: rest =>
    if containsStr line initialClusterPat then
      trimMatches '"' ((splitPat initialClusterPat line).getD 1 [])
    else leaderAddOutputCluster rest

/-- `cluster.rs::add_self_to_cluster`, member-add continuation: run
`member add --learner`, extract the returned descriptor, falling back to
`get_current_cluster`. -/
def addSelfAddPhase (o : Oracle) (endpoint myName myUrl : Str)
    (acts : List Action) : Except Str Str × List Action :=
  match o.memberAddOut endpoint with
  | .error e => (.error e, acts)
  | .ok out =>
    match addOutputCluster (rustLines out) with
    | some c => (.ok c, acts)
    | none => (get_current_cluster o endpoint myName myUrl, acts)

/-- `cluster.rs::add_self_to_cluster`: join an existing cluster as a
learner, repairing a stale registration first.  The fail-safe: when
`has_local_data` cannot complete, local data is assumed to exist. -/
def add_self_to_cluster (cfg : Config) (leaderEndpoint : Str) (o : Oracle) :
    Except Str Str × List Action :=
  match getMyPeerUrlE cfg.initial_cluster cfg.etcd_name with
  | .error e => (.error e, [])
  | .ok myUrl =>
    match o.memberListR leaderEndpoint with
    | .error e => (.error e, [])
    | .ok members =>
      match members.find?
          (fun m => m.name == cfg.etcd_name || m.peer_url == myUrl) with
      | some _ =>
        let hasData :=
          match o.hasDataR with
          | .ok b => b
          | .error _ => true
        if hasData then
          (get_current_cluster o leaderEndpoint cfg.etcd_name myUrl, [])
        else
          match remove_stale_self o leaderEndpoint cfg.etcd_name myUrl with
          | (.error e, acts) => (.error e, acts)
          | (.ok _, acts) =>
            addSelfAddPhase o leaderEndpoint cfg.etcd_name myUrl
              (acts ++ [Action.clearData])
      | none => addSelfAddPhase o leaderEndpoint cfg.etcd_name myUrl []

/-- `bootstrap.rs::clean_stale_data`: wipe the data directory only when
data is present and the bootstrap-complete marker is absent;
`has_local_data` errors propagate before any wipe. -/
def clean_stale_data (cfg : Config) (o : Oracle) :
    Except Str Unit × List Action :=
  if !o.dataDirExists then (.ok (), [])
  else
    match o.hasDataR with
    | .error e => (.error e, [])
    | .ok hasData =>
      if hasData && !o.markerExists then
        match o.clearR with
        | .ok _ => (.ok (), [.clearData])
        | .error e => (.error e, [.clearData])
      else (.ok (), [])

/-- `bootstrap.rs::BootstrapParams`. -/
structure BootstrapParams where
  initial_cluster : Str
  initial_cluster_state : Str
  joined_as_learner : Bool
deriving DecidableEq

/-- Iteration over the non-leader peers in
`bootstrap.rs::wait_for_any_healthy_peer`. -/
def waitPeersGo (o : Oracle) (myName leaderName : Str) :
    List (Str × Str) → Except Str (Option (Str × Str))
  | [] => .ok none
  | (name, peerUrl) :: rest =>
    if name = myName ∨ name = leaderName then
      waitPeersGo o myName leaderName rest
    else
      match o.probe (peer_to_client_url peerUrl) with
      | .error e => .error e
      | .ok true => .ok (some (name, peer_to_client_url peerUrl))
      | .ok false => waitPeersGo o myName leaderName rest

/-- Non-leader half of `bootstrap.rs::wait_for_any_healthy_peer`:
iterate the descriptor for any healthy non-self, non-leader peer; a
fruitless pass is the timeout error. -/
def waitAfterLeader (cfg : Config) (preferredLeader : Str) (o : Oracle)
    (cluster : List (Str × Str)) : Except Str (Str × Str) :=
  match waitPeersGo o cfg.etcd_name preferredLeader cluster with
  | .error e => .error e
  | .ok (some r) => .ok r
  | .ok none => .error "Timeout waiting for any healthy peer".toList

/-- `bootstrap.rs::wait_for_any_healthy_peer`.  The Rust function polls
until `peer_wait_timeout`, trying the bootstrap leader first and then
every other peer; against a time-invariant oracle one polling pass
decides the outcome, so the loop is modelled as one pass whose failure is
the timeout error. -/
def wait_for_any_healthy_peer (cfg : Config) (preferredLeader : Str)
    (o : Oracle) : Except Str (Str × Str) :=
  match parse_initial_cluster cfg.initial_cluster with
  | .error e => .error e
  | .ok cluster =>
    match get_leader_endpoint cfg.initial_cluster preferredLeader with
    | .error e => .error e
    | .ok (some endpoint) =>
      match o.probe endpoint with
      | .error e => .error e
      | .ok true => .ok (preferredLeader, endpoint)
      | .ok false => waitAfterLeader cfg preferredLeader o cluster
    | .ok none => waitAfterLeader cfg preferredLeader o cluster

/-- `bootstrap.rs::bootstrap_as_leader`: parameter selection for the
bootstrap leader.  `.ok none` signals "retry needed".  The stale-self
removal attempted during recovery has its errors logged and ignored
(`warn! .. continuing anyway`); its effects are not part of the returned
parameters. -/
def bootstrap_as_leader (cfg : Config) (o : Oracle) :
    Except Str (Option BootstrapParams) :=
  match parse_initial_cluster cfg.initial_cluster with
  | .error e => .error e
  | .ok _cluster =>
    if o.markerExists then
      .ok (some ⟨cfg.initial_cluster, "existing".toList, false⟩)
    else
      match check_existing_cluster cfg.initial_cluster cfg.etcd_name o with
      | .error e => .error e
      | .ok (some existingEndpoint) =>
        match getMyPeerUrlE cfg.initial_cluster cfg.etcd_name with
        | .error e => .error e
        | .ok myUrl =>
          let _removed := remove_stale_self o existingEndpoint cfg.etcd_name myUrl
          match o.memberAddOut existingEndpoint with
          | .ok out =>
            let clusterStr := leaderAddOutputCluster (rustLines out)
            match (if clusterStr = [] then
                     get_current_cluster o existingEndpoint cfg.etcd_name myUrl
                   else .ok clusterStr) with
            | .error e => .error e
            | .ok c => .ok (some ⟨c, "existing".toList, true⟩)
          | .error _ => .ok none
      | .ok none =>
        match getMyPeerUrlE cfg.initial_cluster cfg.etcd_name with
        | .error e => .error e
        | .ok myUrl =>
          .ok (some ⟨cfg.etcd_name ++ '=' :: myUrl, "new".toList, false⟩)

/-- `bootstrap.rs::bootstrap_as_follower`: parameter selection for a
non-leader node.  `.ok none` signals "retry needed". -/
def bootstrap_as_follower (cfg : Config) (bootstrapLeader : Str)
    (o : Oracle) : Except Str (Option BootstrapParams) :=
  if o.markerExists then
    .ok (some ⟨cfg.initial_cluster, "existing".toList, false⟩)
  else
    match wait_for_any_healthy_peer cfg bootstrapLeader o with
    | .error _ => .ok none
    | .ok (_healthyPeer, endpoint) =>
      match add_self_to_cluster cfg endpoint o with
      | (.ok clusterStr, _) =>
        .ok (some ⟨clusterStr, "existing".toList, true⟩)
      | (.error _, _) => .ok none

/-- Per-attempt parameter selection of `main.rs::main` (steps 2-3a of the
startup path): compute the bootstrap leader, dispatch on `is_leader`. -/
def attempt_params (cfg : Config) (o : Oracle) :
    Except Str (Option BootstrapParams) :=
  match get_bootstrap_leader cfg.initial_cluster with
  | .error e => .error e
  | .ok bootstrapLeader =>
    if cfg.etcd_name = bootstrapLeader then bootstrap_as_leader cfg o
    else bootstrap_as_follower cfg bootstrapLeader o

/-! ## Claims about the etcd cluster operations -/

/-- The membership predicate of `remove_stale_self` /
`add_self_to_cluster`: the listed member has our name or our peer URL. -/
def staleMatch (myName myUrl : Str) (m : MemberInfo) : Bool :=
  m.name == myName || m.peer_url == myUrl

theorem removeStaleGo_trace (o : Oracle) (endpoint myName myUrl : Str) :
    ∀ ms : List MemberInfo,
      (removeStaleGo o endpoint myName myUrl ms).2
        = ((ms.find? (staleMatch myName myUrl)).map
            (fun m => Action.removeMember m.id)).toList
      ∧ (ms.find? (staleMatch myName myUrl) = none →
          removeStaleGo o endpoint myName myUrl ms = (.ok (), [])) := by
  intro ms
  induction ms with
  | nil => exact ⟨rfl, fun _ => rfl⟩
  | cons m rest ih =>
    by_cases hm : m.name = myName ∨ m.peer_url = myUrl
    · have hb : staleMatch myName myUrl m = true := by
        simp [staleMatch]
        rcases hm with h | h
        · exact Or.inl h
        · exact Or.inr h
      rw [List.find?_cons_of_pos _ hb]
      constructor
      · simp only [removeStaleGo, if_pos hm]
        cases o.memberRemoveR endpoint m.id <;> simp
      · intro h; simp at h
    · have hb : ¬ staleMatch myName myUrl m = true := by
        simp [staleMatch]
        push_neg at hm
        exact ⟨hm.1, hm.2⟩
      rw [List.find?_cons_of_neg _ hb]
      constructor
      · simp only [removeStaleGo, if_neg hm]
        exact ih.1
      · intro h
        simp only [removeStaleGo, if_neg hm]
        exact ih.2 h

/-- C10: one call to `remove_stale_self` issues at most one member
removal; when the member list is available the removal (if any) targets
the first listed member matching our name or peer URL; and when no listed
member matches, the call succeeds having performed no action. -/
theorem remove_stale_self_at_most_one (o : Oracle) (endpoint myName myUrl : Str) :
    (remove_stale_self o endpoint myName myUrl).2.length ≤ 1
    ∧ (∀ ms, o.memberListR endpoint = .ok ms →
        (remove_stale_self o endpoint myName myUrl).2
          = ((ms.find? (staleMatch myName myUrl)).map
              (fun m => Action.removeMember m.id)).toList
        ∧ ((∀ m ∈ ms, m.name ≠ myName ∧ m.peer_url ≠ myUrl) →
            remove_stale_self o endpoint myName myUrl = (.ok (), []))) := by
  constructor
  · unfold remove_stale_self
    cases hml : o.memberListR endpoint with
    | error e => simp
    | ok ms =>
      rw [(removeStaleGo_trace o endpoint myName myUrl ms).1]
      cases ms.find? (staleMatch myName myUrl) <;> simp
  · intro ms hml
    have hgo := removeStaleGo_trace o endpoint myName myUrl ms
    constructor
    · unfold remove_stale_self
      rw [hml]
      exact hgo.1
    · intro hnone
      have hfind : ms.find? (staleMatch myName myUrl) = none := by
        rw [List.find?_eq_none]
        intro m hm
        simp [staleMatch]
        exact ⟨(hnone m hm).1, (hnone m hm).2⟩
      unfold remove_stale_self
      rw [hml]
      exact hgo.2 hfind

/-- A fixed oracle used to instantiate witnesses: an empty healthy-free
world whose member list is empty. -/
def emptyOracle : Oracle where
  markerExists := false
  dataDirExists := false
  probe := fun _ => .ok false
  memberListR := fun _ => .ok []
  memberAddOut := fun _ => .error "member add failed".toList
  memberRemoveR := fun _ _ => .ok ()
  hasDataR := .ok false
  clearR := .ok ()

/-- Witness for C10 at a concrete oracle with an empty member list. -/
theorem remove_stale_self_at_most_one_witness :
    (remove_stale_self emptyOracle "e".toList "n".toList "u".toList).2.length ≤ 1
    ∧ remove_stale_self emptyOracle "e".toList "n".toList "u".toList = (.ok (), []) :=
  ⟨(remove_stale_self_at_most_one emptyOracle "e".toList "n".toList "u".toList).1,
   (((remove_stale_self_at_most_one emptyOracle "e".toList "n".toList "u".toList).2
      [] rfl).2) (by simp)⟩

theorem addSelfAddPhase_trace (o : Oracle) (endpoint myName myUrl : Str)
    (acts : List Action) :
    (addSelfAddPhase o endpoint myName myUrl acts).2 = acts := by
  unfold addSelfAddPhase
  cases o.memberAddOut endpoint with
  | error e => rfl
  | ok out => cases hadd : addOutputCluster (rustLines out) <;> simp [hadd]

/-- C3: when `has_local_data` cannot complete successfully, the
supervisor treats the data directory as populated: `add_self_to_cluster`
performs no stale-member removal and no wipe, and the startup
`clean_stale_data` performs no wipe. -/
theorem has_local_data_error_failsafe (cfg : Config) (endpoint : Str)
    (o : Oracle) (e : Str) (herr : o.hasDataR = .error e) :
    (add_self_to_cluster cfg endpoint o).2 = []
    ∧ (clean_stale_data cfg o).2 = [] := by
  constructor
  · unfold add_self_to_cluster
    cases hurl : getMyPeerUrlE cfg.initial_cluster cfg.etcd_name with
    | error e2 => simp
    | ok myUrl =>
      cases hml : o.memberListR endpoint with
      | error e2 => simp
      | ok members =>
        cases hf : members.find?
            (fun m => m.name == cfg.etcd_name || m.peer_url == myUrl) with
        | none => simp [hf, addSelfAddPhase_trace]
        | some m => simp [hf, herr]
  · unfold clean_stale_data
    cases hd : o.dataDirExists with
    | false => simp
    | true => simp [herr]

/-- Witness for C3 at a concrete oracle whose `has_local_data` fails. -/
theorem has_local_data_error_failsafe_witness :
    ({ emptyOracle with hasDataR := .error "io".toList : Oracle }.hasDataR
        = .error "io".toList)
    ∧ (add_self_to_cluster
        ⟨"/d".toList, 60, 5, 300, 5, "a".toList, "a=http://a:2380".toList⟩
        "http://b:2379".toList
        { emptyOracle with hasDataR := .error "io".toList }).2 = []
    ∧ (clean_stale_data
        ⟨"/d".toList, 60, 5, 300, 5, "a".toList, "a=http://a:2380".toList⟩
        { emptyOracle with hasDataR := .error "io".toList }).2 = [] :=
  ⟨rfl,
   (has_local_data_error_failsafe
      ⟨"/d".toList, 60, 5, 300, 5, "a".toList, "a=http://a:2380".toList⟩
      "http://b:2379".toList
      { emptyOracle with hasDataR := .error "io".toList }
      "io".toList rfl).1,
   (has_local_data_error_failsafe
      ⟨"/d".toList, 60, 5, 300, 5, "a".toList, "a=http://a:2380".toList⟩
      "http://b:2379".toList
      { emptyOracle with hasDataR := .error "io".toList }
      "io".toList rfl).2⟩

/-! ### Support lemmas for the bootstrap state machine claims -/

theorem minKeyFold_isSome (cl : List (Str × Str)) :
    ∀ m : Str,
      (cl.foldl
        (fun acc p =>
          match acc with
          | none => some p.1
          | some m => if strLt p.1 m then some p.1 else some m)
        (some m)).isSome := by
  induction cl with
  | nil => intro m; rfl
  | cons p rest ih =>
    intro m
    simp only [List.foldl_cons]
    by_cases h : strLt p.1 m = true
    · rw [if_pos h]; exact ih p.1
    · rw [if_neg h]; exact ih m

theorem minKey?_isSome (cl : List (Str × Str)) (h : cl ≠ []) :
    ∃ m, minKey? cl = some m := by
  cases cl with
  | nil => exact absurd rfl h
  | cons p rest =>
    have := minKeyFold_isSome rest p.1
    unfold minKey?
    simp only [List.foldl_cons]
    exact Option.isSome_iff_exists.mp this

theorem parse_ok_ne_nil (s : Str) (cl : List (Str × Str))
    (h : parse_initial_cluster s = .ok cl) : cl ≠ [] := by
  have hlen := collectE_length parseEntry (split ',' s) cl h
  have hne : split ',' s ≠ [] := List.splitOnP_ne_nil _ s
  intro hnil
  subst hnil
  simp at hlen
  exact hne (List.length_eq_zero.mp hlen.symm)

theorem mem_splitOnP {α : Type} (p : α → Bool) :
    ∀ (l : List α) (x : List α), x ∈ l.splitOnP p → ∀ a ∈ x, ¬ p a = true := by
  intro l
  induction l with
  | nil =>
    intro x hx a ha
    rw [List.splitOnP_nil] at hx
    simp at hx
    subst hx
    simp at ha
  | cons c rest ih =>
    intro x hx a ha
    rw [List.splitOnP_cons] at hx
    by_cases hc : p c = true
    · rw [if_pos hc] at hx
      rcases List.mem_cons.mp hx with h | h
      · subst h; simp at ha
      · exact ih x h a ha
    · rw [if_neg hc] at hx
      rcases hsp : rest.splitOnP p with _ | ⟨hd, tl⟩
      · exact absurd hsp (List.splitOnP_ne_nil _ rest)
      · rw [hsp] at hx
        simp only [List.modifyHead] at hx
        rcases List.mem_cons.mp hx with h | h
        · subst h
          rcases List.mem_cons.mp ha with h2 | h2
          · subst h2; exact hc
          · exact ih hd (by rw [hsp]; exact List.mem_cons_self hd tl) a h2
        · exact ih x (by rw [hsp]; exact List.mem_cons_of_mem hd h) a ha

theorem mem_split_not_sep (sep : Char) (s : Str) (x : Str)
    (hx : x ∈ split sep s) : sep ∉ x := by
  intro ha
  have := mem_splitOnP (· == sep) s x hx sep ha
  simp at this

theorem parseEntry_ok_props (e n u : Str) (h : parseEntry e = .ok (n, u)) :
    e = n ++ '=' :: u ∧ n ≠ [] ∧ u ≠ [] ∧ '=' ∉ n := by
  unfold parseEntry at h
  split at h
  · rename_i n2 u2 hs
    split at h
    · rename_i hne
      simp only [Except.ok.injEq, Prod.mk.injEq] at h
      obtain ⟨h1, h2⟩ := h
      subst h1; subst h2
      obtain ⟨he, hfree⟩ := splitFirst_some '=' e n2 u2 hs
      exact ⟨he, hne.1, hne.2, hfree⟩
    · simp at h
  · simp at h

theorem parse_ok_entry_props (s : Str) (cl : List (Str × Str))
    (h : parse_initial_cluster s = .ok cl) :
    ∀ pr ∈ cl, pr.1 ≠ [] ∧ pr.2 ≠ [] ∧ '=' ∉ pr.1 ∧ ',' ∉ pr.1 ∧ ',' ∉ pr.2 := by
  rintro ⟨n, u⟩ hpr
  obtain ⟨e, he, hent⟩ := collectE_mem parseEntry (split ',' s) cl h (n, u) hpr
  obtain ⟨heq, hn, hu, hfree⟩ := parseEntry_ok_props e n u hent
  have hcomma := mem_split_not_sep ',' s e he
  rw [heq] at hcomma
  simp only [List.mem_append, List.mem_cons, not_or] at hcomma
  exact ⟨hn, hu, hfree, hcomma.1, hcomma.2.2⟩

theorem parse_back (n u : Str) (hn : n ≠ []) (hu : u ≠ [])
    (hne : '=' ∉ n) (hcn : ',' ∉ n) (hcu : ',' ∉ u) :
    parse_initial_cluster (n ++ '=' :: u) = .ok [(n, u)] := by
  have hsingle : split ',' (n ++ '=' :: u) = [n ++ '=' :: u] := by
    apply List.splitOnP_eq_single
    intro x hx
    simp only [List.mem_append, List.mem_cons] at hx
    simp only [beq_iff_eq]
    rcases hx with h | h | h
    · exact fun hc => hcn (hc ▸ h)
    · subst h; decide
    · exact fun hc => hcu (hc ▸ h)
  unfold parse_initial_cluster split at hsingle ⊢
  rw [hsingle]
  have hent : parseEntry (n ++ '=' :: u) = .ok (n, u) := by
    unfold parseEntry
    rw [splitFirst_append '=' n u hne]
    simp [hn, hu]
  simp [collectE, hent]

theorem hmGet_mem (cl : List (Str × Str)) (k u : Str)
    (h : hmGet cl k = some u) : (k, u) ∈ cl := by
  unfold hmGet at h
  rcases hfind : cl.reverse.find? (fun p => p.1 == k) with _ | pr
  · rw [hfind] at h; simp at h
  · rw [hfind] at h
    simp at h
    have hmem : pr ∈ cl.reverse := List.mem_of_find?_eq_some hfind
    have hpred := List.find?_some hfind
    simp only [beq_iff_eq] at hpred
    have hpr : pr = (k, u) := Prod.ext hpred h
    rw [← hpr]
    exact List.mem_reverse.mp hmem

theorem checkExistingGo_none (o : Oracle) (myName : Str) :
    ∀ l : List (Str × Str), checkExistingGo o myName l = .ok none →
      ∀ pr ∈ l, pr.1 ≠ myName →
        o.probe (peer_to_client_url pr.2) = .ok false := by
  intro l
  induction l with
  | nil => intro h pr hpr; simp at hpr
  | cons entry rest ih =>
    rcases entry with ⟨name, peerUrl⟩
    intro h pr hpr hne
    by_cases hself : name = myName
    · rw [checkExistingGo, if_pos hself] at h
      rcases List.mem_cons.mp hpr with h2 | h2
      · subst h2; exact absurd hself hne
      · exact ih h pr h2 hne
    · rw [checkExistingGo, if_neg hself] at h
      rcases hpro : o.probe (peer_to_client_url peerUrl) with e | healthy
      · simp only [hpro] at h
        exact Except.noConfusion h
      · cases healthy with
        | true => simp only [hpro] at h; simp at h
        | false =>
          simp only [hpro] at h
          rcases List.mem_cons.mp hpr with h2 | h2
          · subst h2; exact hpro
          · exact ih h pr h2 hne

theorem bootstrap_as_follower_state (cfg : Config) (bootstrapLeader : Str)
    (o : Oracle) (p : BootstrapParams)
    (h : bootstrap_as_follower cfg bootstrapLeader o = .ok (some p)) :
    p.initial_cluster_state = "existing".toList := by
  unfold bootstrap_as_follower at h
  split at h
  · simp only [Except.ok.injEq, Option.some.injEq] at h
    rw [← h]
  · split at h
    · simp at h
    · split at h
      · rename_i clusterStr acts ha
        simp only [Except.ok.injEq, Option.some.injEq] at h
        rw [← h]
      · simp at h

/-- C2: when the bootstrap-complete marker exists, the per-attempt
parameter selection (leader or follower alike) yields exactly the full
descriptor with `cluster_state = "existing"` and `joined_as_learner =
false`, for any oracle (any remote reachability); and the startup
stale-data cleanup deletes nothing. -/
theorem marker_resume (cfg : Config) (o : Oracle) (cl : List (Str × Str))
    (hparse : parse_initial_cluster cfg.initial_cluster = .ok cl)
    (hmarker : o.markerExists = true) :
    attempt_params cfg o
      = .ok (some ⟨cfg.initial_cluster, "existing".toList, false⟩)
    ∧ (clean_stale_data cfg o).2 = [] := by
  constructor
  · obtain ⟨m, hmin⟩ := minKey?_isSome cl (parse_ok_ne_nil _ _ hparse)
    have hgbl : get_bootstrap_leader cfg.initial_cluster = .ok m := by
      unfold get_bootstrap_leader
      simp only [hparse, hmin]
    unfold attempt_params
    simp only [hgbl]
    by_cases hl : cfg.etcd_name = m
    · rw [if_pos hl]
      unfold bootstrap_as_leader
      simp only [hparse, hmarker, if_pos]
    · rw [if_neg hl]
      unfold bootstrap_as_follower
      simp only [hmarker, if_pos]
  · unfold clean_stale_data
    cases hd : o.dataDirExists with
    | false => simp
    | true =>
      rcases hdata : o.hasDataR with e | b
      · simp [hdata]
      · simp [hdata, hmarker]

/-- Witness for C2: a two-node descriptor, node `a`, marker present. -/
theorem marker_resume_witness :
    parse_initial_cluster "a=http://a:2380,b=http://b:2380".toList
      = .ok [("a".toList, "http://a:2380".toList),
             ("b".toList, "http://b:2380".toList)]
    ∧ attempt_params
        ⟨"/d".toList, 60, 5, 300, 5, "a".toList,
          "a=http://a:2380,b=http://b:2380".toList⟩
        { emptyOracle with markerExists := true }
      = .ok (some ⟨"a=http://a:2380,b=http://b:2380".toList,
                   "existing".toList, false⟩)
    ∧ (clean_stale_data
        ⟨"/d".toList, 60, 5, 300, 5, "a".toList,
          "a=http://a:2380,b=http://b:2380".toList⟩
        { emptyOracle with markerExists := true }).2 = [] := by
  refine ⟨rfl, ?_, ?_⟩
  · exact (marker_resume
      ⟨"/d".toList, 60, 5, 300, 5, "a".toList,
        "a=http://a:2380,b=http://b:2380".toList⟩
      { emptyOracle with markerExists := true }
      [("a".toList, "http://a:2380".toList),
       ("b".toList, "http://b:2380".toList)]
      rfl rfl).1
  · exact (marker_resume
      ⟨"/d".toList, 60, 5, 300, 5, "a".toList,
        "a=http://a:2380,b=http://b:2380".toList⟩
      { emptyOracle with markerExists := true }
      [("a".toList, "http://a:2380".toList),
       ("b".toList, "http://b:2380".toList)]
      rfl rfl).2

/-- C1: an attempt selects `cluster_state = "new"` only when this node's
name is the lexicographically smallest in the descriptor, the
bootstrap-complete marker is absent, and no remote peer's client endpoint
reports healthy; and in that case the computed `initial_cluster` is
exactly the single entry mapping the node's own name to its own peer
URL. -/
theorem fresh_bootstrap_only_lexmin (cfg : Config) (o : Oracle)
    (cl : List (Str × Str)) (p : BootstrapParams)
    (hparse : parse_initial_cluster cfg.initial_cluster = .ok cl)
    (hrun : attempt_params cfg o = .ok (some p))
    (hnew : p.initial_cluster_state = "new".toList) :
    minKey? cl = some cfg.etcd_name
    ∧ o.markerExists = false
    ∧ (∀ pr ∈ cl, pr.1 ≠ cfg.etcd_name →
        o.probe (peer_to_client_url pr.2) = .ok false)
    ∧ ∃ myUrl, hmGet cl cfg.etcd_name = some myUrl
        ∧ p.initial_cluster = cfg.etcd_name ++ '=' :: myUrl
        ∧ parse_initial_cluster p.initial_cluster
            = .ok [(cfg.etcd_name, myUrl)] := by
  obtain ⟨m, hmin⟩ := minKey?_isSome cl (parse_ok_ne_nil _ _ hparse)
  have hgbl : get_bootstrap_leader cfg.initial_cluster = .ok m := by
    unfold get_bootstrap_leader
    simp only [hparse, hmin]
  unfold attempt_params at hrun
  simp only [hgbl] at hrun
  by_cases hl : cfg.etcd_name = m
  case neg =>
    rw [if_neg hl] at hrun
    have := bootstrap_as_follower_state cfg m o p hrun
    rw [hnew] at this
    exact absurd this (by decide)
  case pos =>
    rw [if_pos hl] at hrun
    subst hl
    unfold bootstrap_as_leader at hrun
    simp only [hparse] at hrun
    by_cases hmk : o.markerExists = true
    · rw [if_pos hmk] at hrun
      simp only [Except.ok.injEq, Option.some.injEq] at hrun
      have h2 : ("existing".toList : Str) = "new".toList := by
        rw [← hrun] at hnew
        exact hnew
      exact absurd h2 (by decide)
    · rw [if_neg hmk] at hrun
      rcases hchk : check_existing_cluster cfg.initial_cluster cfg.etcd_name o
        with e | oep
      · simp only [hchk] at hrun
        exact Except.noConfusion hrun
      · cases oep with
        | some ep =>
          simp only [hchk] at hrun
          rcases hurl : getMyPeerUrlE cfg.initial_cluster cfg.etcd_name
            with e | myUrl
          · simp only [hurl] at hrun
            exact Except.noConfusion hrun
          · simp only [hurl] at hrun
            rcases hadd : o.memberAddOut ep with e | out
            · simp only [hadd] at hrun; simp at hrun
            · simp only [hadd] at hrun
              rcases hcs : (if leaderAddOutputCluster (rustLines out) = [] then
                  get_current_cluster o ep cfg.etcd_name myUrl
                else .ok (leaderAddOutputCluster (rustLines out))) with e | c
              · simp only [hcs] at hrun
                exact Except.noConfusion hrun
              · simp only [hcs] at hrun
                simp only [Except.ok.injEq, Option.some.injEq] at hrun
                have h2 : ("existing".toList : Str) = "new".toList := by
                  rw [← hrun] at hnew
                  exact hnew
                exact absurd h2 (by decide)
        | none =>
          simp only [hchk] at hrun
          rcases hurl : getMyPeerUrlE cfg.initial_cluster cfg.etcd_name
            with e | myUrl
          · simp only [hurl] at hrun
            exact Except.noConfusion hrun
          · simp only [hurl] at hrun
            simp only [Except.ok.injEq, Option.some.injEq] at hrun
            have hget : hmGet cl cfg.etcd_name = some myUrl := by
              unfold getMyPeerUrlE get_my_peer_url at hurl
              simp only [hparse] at hurl
              rcases hg : hmGet cl cfg.etcd_name with _ | u2
              · simp only [hg] at hurl
                exact Except.noConfusion hurl
              · simp only [hg, Except.ok.injEq] at hurl
                rw [hurl]
            have hprobe := checkExistingGo_none o cfg.etcd_name cl
              (by
                unfold check_existing_cluster at hchk
                simpa only [hparse] using hchk)
            have hmem := hmGet_mem cl cfg.etcd_name myUrl hget
            obtain ⟨hn, hu, hfree, hcn, hcu⟩ :=
              parse_ok_entry_props cfg.initial_cluster cl hparse
                (cfg.etcd_name, myUrl) hmem
            refine ⟨hmin, by simpa using hmk, hprobe, myUrl, hget, ?_, ?_⟩
            · rw [← hrun]
            · rw [← hrun]
              exact parse_back cfg.etcd_name myUrl hn hu hfree hcn hcu

/-- Witness for C1: node `a` with an empty volume and no healthy peers
bootstraps the single-member cluster `a=http://a:2380`. -/
theorem fresh_bootstrap_only_lexmin_witness :
    attempt_params
        ⟨"/d".toList, 60, 5, 300, 5, "a".toList,
          "a=http://a:2380,b=http://b:2380".toList⟩
        emptyOracle
      = .ok (some ⟨"a=http://a:2380".toList, "new".toList, false⟩)
    ∧ (minKey? [("a".toList, "http://a:2380".toList),
                ("b".toList, "http://b:2380".toList)] = some "a".toList
       ∧ emptyOracle.markerExists = false
       ∧ (∀ pr ∈ [("a".toList, "http://a:2380".toList),
                  ("b".toList, "http://b:2380".toList)],
            pr.1 ≠ "a".toList →
            emptyOracle.probe (peer_to_client_url pr.2) = .ok false)
       ∧ ∃ myUrl,
           hmGet [("a".toList, "http://a:2380".toList),
                  ("b".toList, "http://b:2380".toList)] "a".toList
             = some myUrl
           ∧ ("a=http://a:2380".toList : Str) = "a".toList ++ '=' :: myUrl
           ∧ parse_initial_cluster "a=http://a:2380".toList
               = .ok [("a".toList, myUrl)]) := by
  have hrun : attempt_params
      ⟨"/d".toList, 60, 5, 300, 5, "a".toList,
        "a=http://a:2380,b=http://b:2380".toList⟩
      emptyOracle
      = .ok (some ⟨"a=http://a:2380".toList, "new".toList, false⟩) := rfl
  refine ⟨hrun, ?_⟩
  exact fresh_bootstrap_only_lexmin
    ⟨"/d".toList, 60, 5, 300, 5, "a".toList,
      "a=http://a:2380,b=http://b:2380".toList⟩
    emptyOracle
    [("a".toList, "http://a:2380".toList),
     ("b".toList, "http://b:2380".toList)]
    ⟨"a=http://a:2380".toList, "new".toList, false⟩
    rfl hrun rfl

end Etcd

namespace Common

/-! ## Shared substrate: environment parsing (`src/common/src/config.rs`)

The process environment is modelled as a lookup `String → Option Str`
(Rust `env::var(name)`, `Ok`/`Err(VarError)` collapsed to `Option`).  A
Rust `str::parse::<T>().ok()` is modelled as a function `Str → Option T`
supplied by the caller. -/

/-- `ConfigExt::env_or`: environment variable with a default. -/
def env_or (env : String → Option Str) (name : String) (default : Str) : Str :=
  (env name).getD default

/-- `ConfigExt::env_required`: error when absent. -/
def env_required (env : String → Option Str) (name : String) : Except Str Str :=
  match env name with
  | some v => .ok v
  | none => .error ((name ++ " must be set").toList)

/-- `ConfigExt::env_bool`: `true` iff the value lowercases to `"true"`,
otherwise the default when unset. -/
def env_bool (env : String → Option Str) (name : String) (default : Bool) :
    Bool :=
  match env name with
  | some v => (v.map Char.toLower) == "true".toList
  | none => default

/-- `ConfigExt::env_parse`: parse the variable with `FromStr`, falling
back to `default` when the variable is unset or fails to parse
(`env::var(name).ok().and_then(|v| v.parse().ok()).unwrap_or(default)`). -/
def env_parse {T : Type} (env : String → Option Str) (name : String)
    (parse : Str → Option T) (default : T) : T :=
  ((env name).bind parse).getD default

/-- C9: the generic parse-with-default accessor returns the default when
the variable is set but unparseable, and in every case returns either the
default or a successfully parsed value — never an error. -/
theorem env_parse_default_on_failure {T : Type} (env : String → Option Str)
    (name : String) (parse : Str → Option T) (default : T) :
    (∀ v, env name = some v → parse v = none →
        env_parse env name parse default = default)
    ∧ (env_parse env name parse default = default
        ∨ ∃ v t, env name = some v ∧ parse v = some t
            ∧ env_parse env name parse default = t) := by
  constructor
  · intro v hv hp
    unfold env_parse
    rw [hv]
    simp [hp]
  · unfold env_parse
    rcases hv : env name with _ | v
    · left; simp
    · rcases hp : parse v with _ | t
      · left; simp [hp]
      · right; exact ⟨v, t, rfl, hp, by simp [hp]⟩

/-- Witness for C9: variable set to an unparseable value; a parser that
only accepts `"5"`. -/
theorem env_parse_default_on_failure_witness :
    env_parse (fun _ => some "abc".toList) "ETCD_MAX_RETRIES"
      (fun s => if s = "5".toList then some 5 else none) 60 = 60 :=
  (env_parse_default_on_failure (fun _ => some "abc".toList)
      "ETCD_MAX_RETRIES" (fun s => if s = "5".toList then some 5 else none)
      60).1 "abc".toList rfl (by decide)

end Common

namespace Patroni

/-! ## Database-agent supervisor
(`src/postgres-patroni/src/patroni/config.rs`, `paths.rs`,
`src/postgres-patroni/src/patroni/monitoring.rs`) -/

/-- `str::parse::<u64>().ok()` (resp. `u32`), modelled on decimal digit
strings; machine-width overflow is not reached by any value this
development evaluates. -/
def parseNat (s : Str) : Option Nat :=
  if s ≠ [] ∧ s.all (·.isDigit) then
    some (s.foldl (fun acc c => acc * 10 + (c.toNat - '0'.toNat)) 0)
  else none

/-- `str::parse::<bool>().ok()`: exactly `"true"` or `"false"`. -/
def parseBool (s : Str) : Option Bool :=
  if s = "true".toList then some true
  else if s = "false".toList then some false
  else none

/-- `paths.rs::volume_root`. -/
def volume_root (env : String → Option Str) : Str :=
  Common.env_or env "RAILWAY_VOLUME_MOUNT_PATH"
    "/var/lib/postgresql/data".toList

/-- `paths.rs::ssl_dir`. -/
def ssl_dir (env : String → Option Str) : Str :=
  volume_root env ++ "/certs".toList

/-- `paths.rs::pgdata`. -/
def pgdata (env : String → Option Str) : Str :=
  (env "PGDATA").getD (volume_root env ++ "/pgdata".toList)

/-- `patroni/config.rs::Config`. -/
structure Config where
  scope : Str
  name : Str
  connect_address : Str
  etcd_hosts : Str
  superuser : Str
  superuser_pass : Str
  repl_user : Str
  repl_pass : Str
  app_user : Str
  app_pass : Str
  app_db : Str
  data_dir : Str
  certs_dir : Str
  ttl : Str
  loop_wait : Str
  retry_timeout : Str
  health_check_interval : Nat
  health_check_timeout : Nat
  max_failures : Nat
  startup_grace_period : Nat
  max_startup_timeout : Nat
  adopt_existing_data : Bool

/-- `patroni/config.rs::Config::from_env`. -/
def config_from_env (env : String → Option Str) : Except Str Config :=
  match Common.env_required env "PATRONI_NAME" with
  | .error e => .error e
  | .ok name =>
    match Common.env_required env "RAILWAY_PRIVATE_DOMAIN" with
    | .error e => .error e
    | .ok connect_address =>
      match Common.env_required env "PATRONI_ETCD3_HOSTS" with
      | .error e => .error e
      | .ok etcd_hosts =>
        .ok {
          scope := Common.env_or env "PATRONI_SCOPE" "railway-pg-ha".toList
          name := name
          connect_address := connect_address
          etcd_hosts := etcd_hosts
          superuser := Common.env_or env "PATRONI_SUPERUSER_USERNAME"
            "postgres".toList
          superuser_pass := (env "PATRONI_SUPERUSER_PASSWORD").getD []
          repl_user := Common.env_or env "PATRONI_REPLICATION_USERNAME"
            "replicator".toList
          repl_pass := (env "PATRONI_REPLICATION_PASSWORD").getD []
          app_user := Common.env_or env "POSTGRES_USER" "postgres".toList
          app_pass := (env "POSTGRES_PASSWORD").getD []
          app_db := ((env "POSTGRES_DB").orElse
            (fun _ => env "PGDATABASE")).getD "railway".toList
          data_dir := pgdata env
          certs_dir := ssl_dir env
          ttl := Common.env_or env "PATRONI_TTL" "40".toList
          loop_wait := Common.env_or env "PATRONI_LOOP_WAIT" "10".toList
          retry_timeout := Common.env_or env "PATRONI_RETRY_TIMEOUT"
            "10".toList
          health_check_interval :=
            Common.env_parse env "PATRONI_HEALTH_CHECK_INTERVAL" parseNat 5
          health_check_timeout :=
            Common.env_parse env "PATRONI_HEALTH_CHECK_TIMEOUT" parseNat 5
          max_failures :=
            Common.env_parse env "PATRONI_MAX_HEALTH_FAILURES" parseNat 3
          startup_grace_period :=
            Common.env_parse env "PATRONI_STARTUP_GRACE_PERIOD" parseNat 60
          max_startup_timeout :=
            Common.env_parse env "PATRONI_MAX_STARTUP_TIMEOUT" parseNat 300
          adopt_existing_data :=
            Common.env_parse env "PATRONI_ADOPT_EXISTING_DATA" parseBool false
        }

/-- C5: with the DCS environment variables unset, the defaults are
`ttl = 40`, `loop_wait = 10`, `retry_timeout = 10`, and they satisfy
`loop_wait + 2 * retry_timeout ≤ ttl` with a margin of exactly 10. -/
theorem dcs_timing_defaults (env : String → Option Str) (cfg : Config)
    (hc : config_from_env env = .ok cfg)
    (h1 : env "PATRONI_TTL" = none)
    (h2 : env "PATRONI_LOOP_WAIT" = none)
    (h3 : env "PATRONI_RETRY_TIMEOUT" = none) :
    cfg.ttl = "40".toList
    ∧ cfg.loop_wait = "10".toList
    ∧ cfg.retry_timeout = "10".toList
    ∧ parseNat cfg.ttl = some 40
    ∧ parseNat cfg.loop_wait = some 10
    ∧ parseNat cfg.retry_timeout = some 10
    ∧ 10 + 2 * 10 ≤ 40
    ∧ 40 - (10 + 2 * 10) = 10 := by
  unfold config_from_env at hc
  split at hc
  · exact Except.noConfusion hc
  · split at hc
    · exact Except.noConfusion hc
    · split at hc
      · exact Except.noConfusion hc
      · simp only [Except.ok.injEq] at hc
        subst hc
        refine ⟨?_, ?_, ?_, ?_, ?_, ?_, by decide, by decide⟩
        · show Common.env_or env "PATRONI_TTL" "40".toList = "40".toList
          unfold Common.env_or
          rw [h1]
          rfl
        · show Common.env_or env "PATRONI_LOOP_WAIT" "10".toList
            = "10".toList
          unfold Common.env_or
          rw [h2]
          rfl
        · show Common.env_or env "PATRONI_RETRY_TIMEOUT" "10".toList
            = "10".toList
          unfold Common.env_or
          rw [h3]
          rfl
        · show parseNat (Common.env_or env "PATRONI_TTL" "40".toList)
            = some 40
          unfold Common.env_or
          rw [h1]
          decide
        · show parseNat (Common.env_or env "PATRONI_LOOP_WAIT" "10".toList)
            = some 10
          unfold Common.env_or
          rw [h2]
          decide
        · show parseNat
            (Common.env_or env "PATRONI_RETRY_TIMEOUT" "10".toList)
            = some 10
          unfold Common.env_or
          rw [h3]
          decide

/-- The environment used by the Patroni witnesses: required variables
set, everything else unset. -/
def witEnv : String → Option Str := fun n =>
  if n = "PATRONI_NAME" then some "pg-1".toList
  else if n = "RAILWAY_PRIVATE_DOMAIN" then some "pg-1.internal".toList
  else if n = "PATRONI_ETCD3_HOSTS" then some "etcd-1:2379".toList
  else none

/-- Witness for C5 at a concrete environment with the DCS variables
unset. -/
theorem dcs_timing_defaults_witness :
    (∃ cfg, config_from_env witEnv = .ok cfg)
    ∧ (∀ cfg, config_from_env witEnv = .ok cfg →
        cfg.ttl = "40".toList
        ∧ cfg.loop_wait = "10".toList
        ∧ cfg.retry_timeout = "10".toList
        ∧ parseNat cfg.ttl = some 40
        ∧ parseNat cfg.loop_wait = some 10
        ∧ parseNat cfg.retry_timeout = some 10
        ∧ 10 + 2 * 10 ≤ 40
        ∧ 40 - (10 + 2 * 10) = 10) := by
  constructor
  · exact ⟨_, rfl⟩
  · intro cfg hc
    exact dcs_timing_defaults witEnv cfg hc rfl rfl rfl

/-! ### Startup monitoring (`patroni/monitoring.rs::run_monitoring_loop`) -/

/-- The kill sequence steps the supervisor performs when giving up. -/
inductive KillStep where
  | sigterm
  | sleep2s
  | sigkill
deriving DecidableEq

/-- Outcome of the startup phase of `run_monitoring_loop`, in the run
where no signal arrives and the child process stays alive (the other
`tokio::select!` arms are not taken). -/
inductive StartupOutcome where
  | healthy (elapsed : Nat)
  | timedOut (kills : List KillStep) (exitCode : Nat)
deriving DecidableEq

/-- The startup loop of `run_monitoring_loop`: each tick sleeps 5 s,
increments `startup_elapsed` by 5, breaks to steady-state monitoring when
the health check succeeds, and otherwise — once
`startup_elapsed >= max_startup_timeout` — sends SIGTERM, sleeps 2 s,
sends SIGKILL and exits 1.  `healthyAt e` is the result of
`check_health` at elapsed time `e`. -/
def startupLoop (maxStartupTimeout : Nat) (healthyAt : Nat → Bool)
    (elapsed : Nat) : StartupOutcome :=
  let e2 := elapsed + 5
  if healthyAt e2 then .healthy e2
  else if maxStartupTimeout ≤ e2 then
    .timedOut [.sigterm, .sleep2s, .sigkill] 1
  else startupLoop maxStartupTimeout healthyAt e2
termination_by maxStartupTimeout - elapsed
decreasing_by omega

/-- The startup phase from process spawn (`startup_elapsed = 0`). -/
def run_startup_phase (maxStartupTimeout : Nat) (healthyAt : Nat → Bool) :
    StartupOutcome :=
  startupLoop maxStartupTimeout healthyAt 0

theorem startupLoop_never_healthy (maxStartupTimeout : Nat)
    (healthyAt : Nat → Bool) (h : ∀ t, healthyAt t = false) :
    ∀ fuel elapsed, maxStartupTimeout - elapsed ≤ fuel →
      startupLoop maxStartupTimeout healthyAt elapsed
        = .timedOut [.sigterm, .sleep2s, .sigkill] 1 := by
  intro fuel
  induction fuel with
  | zero =>
    intro elapsed hle
    rw [startupLoop]
    simp only [h]
    have : maxStartupTimeout ≤ elapsed + 5 := by omega
    simp [this]
  | succ n ih =>
    intro elapsed hle
    rw [startupLoop]
    simp only [h]
    by_cases hm : maxStartupTimeout ≤ elapsed + 5
    · simp [hm]
    · simp only [hm, if_false, Bool.false_eq_true, if_neg]
      exact ih (elapsed + 5) (by omega)

/-- C4: if the health endpoint never reports success, the startup phase
ends by sending SIGTERM, sleeping 2 s, sending SIGKILL, and exiting with
the non-zero status 1. -/
theorem startup_timeout_kills_child (maxStartupTimeout : Nat)
    (healthyAt : Nat → Bool) (h : ∀ t, healthyAt t = false) :
    run_startup_phase maxStartupTimeout healthyAt
      = .timedOut [.sigterm, .sleep2s, .sigkill] 1
    ∧ (1 : Nat) ≠ 0 := by
  refine ⟨?_, by decide⟩
  exact startupLoop_never_healthy maxStartupTimeout healthyAt h
    (maxStartupTimeout - 0) 0 le_rfl

/-- Witness for C4 at the default timeout 300 and an always-failing
health endpoint. -/
theorem startup_timeout_kills_child_witness :
    run_startup_phase 300 (fun _ => false)
      = .timedOut [.sigterm, .sleep2s, .sigkill] 1
    ∧ (1 : Nat) ≠ 0 :=
  startup_timeout_kills_child 300 (fun _ => false) (fun _ => rfl)

/-! ### YAML rendering and the ad-hoc credential scanner
(`src/postgres-patroni/src/bin/patroni_runner.rs::generate_patroni_config`,
`src/postgres-patroni/src/lib.rs::{parse_yaml_value, extract_yaml_value}`,
`src/postgres-patroni/src/bin/post_bootstrap.rs::{extract_nested_value,
read_credentials}`) -/

/-- `lib.rs::parse_yaml_value`: split a `key: value` line at the first
colon, trim the value, then strip quote runs in the order
`"` start, `"` end, `'` start, `'` end. -/
def parse_yaml_value (line : Str) : Option Str :=
  match splitFirst ':' line with
  | (_, some afterColon) =>
    let value := trim afterColon
    some (trimEndMatches '\'' (trimStartMatches '\''
      (trimEndMatches '"' (trimStartMatches '"' value))))
  | (_, none) => none

/-- `lib.rs::extract_yaml_value`, loop over the lines (the Rust `let`
bindings `trimmed`/`indent` are inlined). -/
def extractYamlGo (sec key : Str) :
    List Str → Bool → Nat → Option Str
  | [], _, _ => none
  | line :: rest, inSection, sectionIndent =>
    if List.isPrefixOf (sec ++ [':']) (trimStart line) then
      extractYamlGo sec key rest true
        (line.length - (trimStart line).length)
    else if inSection then
      if trimStart line ≠ []
          ∧ line.length - (trimStart line).length ≤ sectionIndent
          ∧ ¬ List.isPrefixOf ['#'] (trimStart line) then
        extractYamlGo sec key rest false sectionIndent
      else if List.isPrefixOf (key ++ [':']) (trimStart line) then
        parse_yaml_value (trimStart line)
      else
        extractYamlGo sec key rest true sectionIndent
    else
      extractYamlGo sec key rest inSection sectionIndent

/-- `lib.rs::extract_yaml_value`: scan `content.lines()`. -/
def extract_yaml_value (content : Str) (sec key : Str) : Option Str :=
  extractYamlGo sec key (rustLines content) false 0

/-- `post_bootstrap.rs::extract_nested_value`, loop over the lines. -/
def extractNestedGo (s1 s2 key : Str) :
    List Str → Bool → Bool → Nat → Nat → Option Str
  | [], _, _, _, _ => none
  | line :: rest, in1, in2, i1, i2 =>
    if List.isPrefixOf (s1 ++ [':']) (trimStart line) then
      extractNestedGo s1 s2 key rest true in2
        (line.length - (trimStart line).length) i2
    else if in1 then
      if trimStart line ≠ []
          ∧ line.length - (trimStart line).length ≤ i1
          ∧ ¬ List.isPrefixOf ['#'] (trimStart line) then
        extractNestedGo s1 s2 key rest false false i1 i2
      else if List.isPrefixOf (s2 ++ [':']) (trimStart line) then
        extractNestedGo s1 s2 key rest true true i1
          (line.length - (trimStart line).length)
      else if in2 then
        if trimStart line ≠ []
            ∧ line.length - (trimStart line).length ≤ i2
            ∧ ¬ List.isPrefixOf ['#'] (trimStart line) then
          extractNestedGo s1 s2 key rest true false i1 i2
        else if List.isPrefixOf (key ++ [':']) (trimStart line) then
          parse_yaml_value (trimStart line)
        else
          extractNestedGo s1 s2 key rest true true i1 i2
      else
        extractNestedGo s1 s2 key rest true false i1 i2
    else
      extractNestedGo s1 s2 key rest in1 in2 i1 i2

/-- `post_bootstrap.rs::extract_nested_value`: scan `content.lines()`. -/
def extract_nested_value (content : Str) (s1 s2 key : Str) : Option Str :=
  extractNestedGo s1 s2 key (rustLines content) false false 0 0


/-! ### Helper lemmas for the YAML scanner proofs -/

/-- The head of the string, if any, is not whitespace. -/
def headNonWs : Str → Bool
  | [] => true
  | c :: _ => !c.isWhitespace

theorem trimStart_cons (c : Char) (rest : Str) :
    trimStart (c :: rest) = if c.isWhitespace then trimStart rest else c :: rest := rfl

theorem trimStartMatches_cons (m c : Char) (rest : Str) :
    trimStartMatches m (c :: rest)
      = if c = m then trimStartMatches m rest else c :: rest := rfl

theorem trimStart_of_headNonWs (l : Str) (h : headNonWs l = true) :
    trimStart l = l := by
  cases l with
  | nil => rfl
  | cons c rest =>
    simp only [headNonWs, Bool.not_eq_true'] at h
    rw [trimStart_cons, h]
    simp

theorem trimStart_replicate (k : Nat) (body : Str)
    (h : headNonWs body = true) :
    trimStart (List.replicate k ' ' ++ body) = body := by
  induction k with
  | zero => simpa using trimStart_of_headNonWs body h
  | succ n ih =>
    rw [List.replicate_succ, List.cons_append, trimStart_cons,
      if_pos (by decide)]
    exact ih

theorem trimStart_append (a v : Str) (ha : trimStart a ≠ []) :
    trimStart (a ++ v) = trimStart a ++ v := by
  induction a with
  | nil => simp [trimStart] at ha
  | cons c rest ih =>
    by_cases hw : c.isWhitespace
    · rw [trimStart_cons c rest, if_pos hw] at ha
      rw [List.cons_append, trimStart_cons c (rest ++ v), if_pos hw,
        trimStart_cons c rest, if_pos hw]
      exact ih ha
    · rw [List.cons_append, trimStart_cons c (rest ++ v), if_neg hw,
        trimStart_cons c rest, if_neg hw, List.cons_append]

theorem replicate_append_length (k : Nat) (body : Str) :
    (List.replicate k ' ' ++ body).length - body.length = k := by
  simp

theorem prefix_mismatch (p q v : Str)
    (h : List.isPrefixOf (p.take q.length) q = false) :
    List.isPrefixOf p (q ++ v) = false := by
  induction q generalizing p with
  | nil => simp [List.isPrefixOf] at h
  | cons b q2 ih =>
    cases p with
    | nil => simp [List.isPrefixOf] at h
    | cons a p2 =>
      simp only [List.length_cons, List.take_succ_cons,
        List.isPrefixOf] at h
      rw [List.cons_append]
      simp only [List.isPrefixOf, Bool.and_eq_false_iff] at h ⊢
      rcases h with h | h
      · exact Or.inl h
      · exact Or.inr (ih p2 h)

theorem prefix_extend (p q v : Str) (h : List.isPrefixOf p q = true) :
    List.isPrefixOf p (q ++ v) = true := by
  rw [List.isPrefixOf_iff_prefix] at h ⊢
  exact h.trans (List.prefix_append q v)

theorem trimStartMatches_cons_ne (m c : Char) (l : Str) (h : ¬ c = m) :
    trimStartMatches m (c :: l) = c :: l := by
  rw [trimStartMatches_cons, if_neg h]

theorem trimStartMatches_head_ne (m : Char) (l : Str)
    (h : ∀ c, l.head? = some c → ¬ c = m) : trimStartMatches m l = l := by
  cases l with
  | nil => rfl
  | cons c rest => exact trimStartMatches_cons_ne m c rest (h c rfl)

theorem trimEndMatches_getLast_ne (m : Char) (l : Str)
    (h : l.getLast? ≠ some m) : trimEndMatches m l = l := by
  have h2 : trimStartMatches m l.reverse = l.reverse :=
    trimStartMatches_head_ne m l.reverse
      (fun c hc hcm => h (by rw [← List.head?_reverse, hc, hcm]))
  show (trimStartMatches m l.reverse).reverse = l
  rw [h2, List.reverse_reverse]

theorem trimEndMatches_concat (m : Char) (v : Str)
    (h : v.getLast? ≠ some m) : trimEndMatches m (v ++ [m]) = v := by
  show (trimStartMatches m ((v ++ [m]).reverse)).reverse = v
  rw [List.reverse_append, List.reverse_singleton, List.singleton_append]
  rw [trimStartMatches_cons, if_pos rfl]
  rw [trimStartMatches_head_ne m v.reverse
    (fun c hc hcm => h (by rw [← List.head?_reverse, hc, hcm]))]
  exact List.reverse_reverse v

theorem trimEnd_getLast_nonws (l : Str)
    (h : ∀ c, l.getLast? = some c → c.isWhitespace = false) :
    trimEnd l = l := by
  show (trimStart l.reverse).reverse = l
  cases hrev : l.reverse with
  | nil =>
    have h3 : l = [] := by simpa using congrArg List.reverse hrev
    rw [h3]
    rfl
  | cons c rest =>
    have hc : l.getLast? = some c := by
      rw [← List.head?_reverse, hrev]
      rfl
    have hnw : c.isWhitespace = false := h c hc
    rw [trimStart_cons, if_neg (by simp [hnw]), ← hrev,
      List.reverse_reverse]

/-- Values whose ends carry no quote characters (the class on which the
ad-hoc quote stripping of `parse_yaml_value` is injective). -/
def quoteClean (v : Str) : Prop :=
  v.head? ≠ some '"' ∧ v.head? ≠ some '\'' ∧
  v.getLast? ≠ some '"' ∧ v.getLast? ≠ some '\''

theorem stripQuotes_clean (v : Str) (hv : quoteClean v) :
    trimEndMatches '\'' (trimStartMatches '\''
      (trimEndMatches '"' (trimStartMatches '"' ('"' :: (v ++ ['"']))))) = v := by
  obtain ⟨h1, h2, h3, h4⟩ := hv
  cases v with
  | nil => decide
  | cons c v2 =>
    have hc : ¬ c = '"' := fun h => h1 (by rw [h]; rfl)
    rw [show trimStartMatches '"' ('"' :: ((c :: v2) ++ ['"']))
        = (c :: v2) ++ ['"'] from by
      rw [trimStartMatches_cons, if_pos rfl]
      exact trimStartMatches_cons_ne '"' c (v2 ++ ['"']) hc]
    rw [trimEndMatches_concat '"' (c :: v2) h3]
    rw [trimStartMatches_head_ne '\'' (c :: v2)
      (fun d hd hdm => h2 (by rw [hd, hdm]))]
    exact trimEndMatches_getLast_ne '\'' (c :: v2) h4

theorem parse_quoted_line (key v : Str) (hk : ':' ∉ key)
    (hv : quoteClean v) :
    parse_yaml_value (key ++ ':' :: ' ' :: '"' :: (v ++ ['"']))
      = some v := by
  have htrim : trim (' ' :: '"' :: (v ++ ['"'])) = '"' :: (v ++ ['"']) := by
    have hts : trimStart (' ' :: '"' :: (v ++ ['"']))
        = '"' :: (v ++ ['"']) := by
      rw [trimStart_cons, if_pos (by decide), trimStart_cons,
        if_neg (by decide)]
    show trimEnd (trimStart (' ' :: '"' :: (v ++ ['"'])))
        = '"' :: (v ++ ['"'])
    rw [hts]
    apply trimEnd_getLast_nonws
    intro c hc
    have hlast : ('"' :: (v ++ ['"'])).getLast? = some '"' :=
      List.getLast?_concat ('"' :: v)
    rw [hlast] at hc
    injection hc with h
    rw [← h]
    decide
  unfold parse_yaml_value
  simp only [splitFirst_append ':' key (' ' :: '"' :: (v ++ ['"'])) hk]
  rw [htrim]
  rw [stripQuotes_clean v hv]

/-- `post_bootstrap.rs::Credentials`. -/
structure Credentials where
  repl_user : Str
  repl_pass : Str
  superuser : Str
  superuser_pass : Str
  app_user : Str
  app_pass : Str
  app_db : Str
deriving DecidableEq

/-- `post_bootstrap.rs::read_credentials`, over the config file content
(the Rust reads `/tmp/patroni.yml`, which the runner wrote): the four
authentication fields are required, the `app_user` fields default to
empty. -/
def read_credentials (content : Str) : Except Str Credentials :=
  match extract_nested_value content "authentication".toList
      "replication".toList "username".toList with
  | none => .error "Could not extract replication username".toList
  | some repl_user =>
    match extract_nested_value content "authentication".toList
        "replication".toList "password".toList with
    | none => .error "Could not extract replication password".toList
    | some repl_pass =>
      match extract_nested_value content "authentication".toList
          "superuser".toList "username".toList with
      | none => .error "Could not extract superuser username".toList
      | some superuser =>
        match extract_nested_value content "authentication".toList
            "superuser".toList "password".toList with
        | none => .error "Could not extract superuser password".toList
        | some superuser_pass =>
          .ok { repl_user := repl_user
                repl_pass := repl_pass
                superuser := superuser
                superuser_pass := superuser_pass
                app_user := (extract_yaml_value content "app_user".toList
                  "username".toList).getD []
                app_pass := (extract_yaml_value content "app_user".toList
                  "password".toList).getD []
                app_db := (extract_yaml_value content "app_user".toList
                  "database".toList).getD [] }

/-- The lines of the `patroni_runner.rs::generate_patroni_config`
template, in order (the `format!` raw string, split at its newlines,
with the `{field}` interpolations as appends). -/
def patroniYamlLines (c : Config) : List Str := [
  "scope: ".toList ++ c.scope,
  "name: ".toList ++ c.name,
  [],
  "restapi:".toList,
  "  listen: 0.0.0.0:8008".toList,
  "  connect_address: ".toList ++ c.connect_address ++ ":8008".toList,
  [],
  "etcd3:".toList,
  "  hosts: ".toList ++ c.etcd_hosts,
  [],
  "bootstrap:".toList,
  "  dcs:".toList,
  "    ttl: ".toList ++ c.ttl,
  "    loop_wait: ".toList ++ c.loop_wait,
  "    retry_timeout: ".toList ++ c.retry_timeout,
  "    maximum_lag_on_failover: 1048576".toList,
  "    failsafe_mode: true".toList,
  "    postgresql:".toList,
  "      use_pg_rewind: true".toList,
  "      use_slots: true".toList,
  "      parameters:".toList,
  "        wal_level: replica".toList,
  "        hot_standby: \"on\"".toList,
  "        max_wal_senders: 10".toList,
  "        max_replication_slots: 10".toList,
  "        max_connections: 200".toList,
  "        password_encryption: scram-sha-256".toList,
  [],
  "  initdb:".toList,
  "    - encoding: UTF8".toList,
  "    - data-checksums".toList,
  "    - username: ".toList ++ c.superuser,
  [],
  "  pg_hba:".toList,
  "    - local all all trust".toList,
  "    - hostssl replication ".toList ++ c.repl_user
    ++ " 0.0.0.0/0 scram-sha-256".toList,
  "    - hostssl replication ".toList ++ c.repl_user
    ++ " ::/0 scram-sha-256".toList,
  "    - hostssl all all 0.0.0.0/0 scram-sha-256".toList,
  "    - hostssl all all ::/0 scram-sha-256".toList,
  "    - host replication ".toList ++ c.repl_user
    ++ " 0.0.0.0/0 scram-sha-256".toList,
  "    - host replication ".toList ++ c.repl_user
    ++ " ::/0 scram-sha-256".toList,
  "    - host all all 0.0.0.0/0 scram-sha-256".toList,
  "    - host all all ::/0 scram-sha-256".toList,
  [],
  "  post_bootstrap: /post_bootstrap.sh".toList,
  [],
  "postgresql:".toList,
  "  listen: \"*:5432\"".toList,
  "  connect_address: ".toList ++ c.connect_address ++ ":5432".toList,
  "  data_dir: ".toList ++ c.data_dir,
  "  pgpass: /tmp/pgpass".toList,
  "  callbacks:".toList,
  "    on_role_change: /on_role_change.sh".toList,
  "  remove_data_directory_on_rewind_failure: true".toList,
  "  remove_data_directory_on_diverged_timelines: true".toList,
  "  create_replica_methods:".toList,
  "    - basebackup".toList,
  "  basebackup:".toList,
  "    checkpoint: \"fast\"".toList,
  "    wal-method: \"stream\"".toList,
  "  authentication:".toList,
  "    replication:".toList,
  "      username: \"".toList ++ c.repl_user ++ "\"".toList,
  "      password: \"".toList ++ c.repl_pass ++ "\"".toList,
  "    superuser:".toList,
  "      username: \"".toList ++ c.superuser ++ "\"".toList,
  "      password: \"".toList ++ c.superuser_pass ++ "\"".toList,
  "  app_user:".toList,
  "    username: \"".toList ++ c.app_user ++ "\"".toList,
  "    password: \"".toList ++ c.app_pass ++ "\"".toList,
  "    database: \"".toList ++ c.app_db ++ "\"".toList,
  "  parameters:".toList,
  "    unix_socket_directories: /var/run/postgresql".toList,
  "    ssl: \"on\"".toList,
  "    ssl_cert_file: \"".toList ++ c.certs_dir ++ "/server.crt\"".toList,
  "    ssl_key_file: \"".toList ++ c.certs_dir ++ "/server.key\"".toList,
  "    ssl_ca_file: \"".toList ++ c.certs_dir ++ "/root.crt\"".toList]

/-- `patroni_runner.rs::generate_patroni_config`: the template string —
every line above followed by a newline (the raw string ends with one). -/
def generate_patroni_config (c : Config) : Str :=
  joinLines (patroniYamlLines c)


/-! ### Joining and re-splitting the rendered template -/

theorem forall_mem_cons_intro {T : Type} {p : T → Prop} {a : T} {l : List T}
    (ha : p a) (hl : ∀ x ∈ l, p x) : ∀ x ∈ a :: l, p x :=
  (List.forall_mem_cons).mpr ⟨ha, hl⟩

theorem not_mem_append2 {x : Char} {a v : Str} (ha : x ∉ a) (hv : x ∉ v) :
    x ∉ a ++ v :=
  fun hx => (List.mem_append.mp hx).elim (fun h => ha h) (fun h => hv h)

theorem not_mem_append3 {x : Char} {a v b : Str} (ha : x ∉ a) (hv : x ∉ v)
    (hb : x ∉ b) : x ∉ (a ++ v) ++ b :=
  not_mem_append2 (not_mem_append2 ha hv) hb

theorem mem_of_getLast?_some {x : Char} : ∀ {l : Str}, l.getLast? = some x → x ∈ l
  | [], h => by simp [List.getLast?] at h
  | [a], h => by
      have h2 : some a = some x := h
      cases h2
      exact List.mem_cons_self x []
  | a :: b :: t, h => by
      rw [List.getLast?_cons_cons] at h
      exact List.mem_cons_of_mem a (mem_of_getLast?_some h)

theorem getLast?_ne_of_not_mem {x : Char} {l : Str} (h : x ∉ l) :
    l.getLast? ≠ some x := fun hl => h (mem_of_getLast?_some hl)

theorem prefix_key_colon (key tail : Str) :
    List.isPrefixOf (key ++ [':']) (key ++ ':' :: tail) = true := by
  have h : key ++ ':' :: tail = (key ++ [':']) ++ tail := by simp
  rw [h]
  apply prefix_extend
  rw [ List.isPrefixOf_iff_prefix]

theorem split_joinLines (ls : List Str) (h : ∀ l ∈ ls, '\n' ∉ l) :
    split '\n' (joinLines ls) = ls ++ [[]] := by
  induction ls with
  | nil => rfl
  | cons l t ih =>
    have h1 : ∀ x ∈ l, ¬ ((x == '\n') = true) :=
      fun x hx hb => h l (List.mem_cons_self l t) ((eq_of_beq hb) ▸ hx)
    show (l ++ '\n' :: joinLines t).splitOnP (fun x => x == '\n')
        = l :: (t ++ [[]])
    rw [List.splitOnP_first (fun x => x == '\n') l h1 '\n' (by simp)
      (joinLines t)]
    exact congrArg (l :: ·) (ih (fun x hx => h x (List.mem_cons_of_mem l hx)))

theorem rustLines_joinLines (ls : List Str)
    (hn : ∀ l ∈ ls, '\n' ∉ l) (hr : ∀ l ∈ ls, l.getLast? ≠ some '\r') :
    rustLines (joinLines ls) = ls := by
  have h1 : split '\n' (joinLines ls) = ls ++ [[]] := split_joinLines ls hn
  have hmap : ∀ l ∈ ls, stripCR l = id l := fun l hl => by
    unfold stripCR
    rw [if_neg (hr l hl)]
    rfl
  simp only [rustLines, h1]
  rw [List.getLast?_concat, if_pos rfl, List.dropLast_concat,
    List.map_congr_left hmap, List.map_id]

/-- The rendered fields must not carry line breaks, or the line structure
of the YAML is destroyed. -/
def NoBreak (v : Str) : Prop := '\n' ∉ v ∧ '\r' ∉ v

/-- Every interpolated `Config` field is line-break free. -/
def cleanConfig (c : Config) : Prop :=
  NoBreak c.scope ∧ NoBreak c.name ∧ NoBreak c.connect_address ∧
  NoBreak c.etcd_hosts ∧ NoBreak c.ttl ∧ NoBreak c.loop_wait ∧
  NoBreak c.retry_timeout ∧ NoBreak c.superuser ∧ NoBreak c.repl_user ∧
  NoBreak c.repl_pass ∧ NoBreak c.superuser_pass ∧ NoBreak c.app_user ∧
  NoBreak c.app_pass ∧ NoBreak c.app_db ∧ NoBreak c.data_dir ∧
  NoBreak c.certs_dir

instance (v : Str) : Decidable (NoBreak v) := by
  unfold NoBreak
  infer_instance

instance (c : Config) : Decidable (cleanConfig c) := by
  unfold cleanConfig
  infer_instance

instance (v : Str) : Decidable (quoteClean v) := by
  unfold quoteClean
  infer_instance

theorem patroniYamlLines_no_newline (c : Config) (h : cleanConfig c) :
    ∀ l ∈ patroniYamlLines c, '\n' ∉ l := by
  obtain ⟨hscope, hname, hconn, hhosts, httl, hloop, hretry, hsu, hru, hrp, hsp, hau, hap, hadb, hdata, hcerts⟩ := h
  refine forall_mem_cons_intro ?_ (forall_mem_cons_intro ?_ (forall_mem_cons_intro ?_
    (forall_mem_cons_intro ?_ (forall_mem_cons_intro ?_ (forall_mem_cons_intro ?_
    (forall_mem_cons_intro ?_ (forall_mem_cons_intro ?_ (forall_mem_cons_intro ?_
    (forall_mem_cons_intro ?_ (forall_mem_cons_intro ?_ (forall_mem_cons_intro ?_
    (forall_mem_cons_intro ?_ (forall_mem_cons_intro ?_ (forall_mem_cons_intro ?_
    (forall_mem_cons_intro ?_ (forall_mem_cons_intro ?_ (forall_mem_cons_intro ?_
    (forall_mem_cons_intro ?_ (forall_mem_cons_intro ?_ (forall_mem_cons_intro ?_
    (forall_mem_cons_intro ?_ (forall_mem_cons_intro ?_ (forall_mem_cons_intro ?_
    (forall_mem_cons_intro ?_ (forall_mem_cons_intro ?_ (forall_mem_cons_intro ?_
    (forall_mem_cons_intro ?_ (forall_mem_cons_intro ?_ (forall_mem_cons_intro ?_
    (forall_mem_cons_intro ?_ (forall_mem_cons_intro ?_ (forall_mem_cons_intro ?_
    (forall_mem_cons_intro ?_ (forall_mem_cons_intro ?_ (forall_mem_cons_intro ?_
    (forall_mem_cons_intro ?_ (forall_mem_cons_intro ?_ (forall_mem_cons_intro ?_
    (forall_mem_cons_intro ?_ (forall_mem_cons_intro ?_ (forall_mem_cons_intro ?_
    (forall_mem_cons_intro ?_ (forall_mem_cons_intro ?_ (forall_mem_cons_intro ?_
    (forall_mem_cons_intro ?_ (forall_mem_cons_intro ?_ (forall_mem_cons_intro ?_
    (forall_mem_cons_intro ?_ (forall_mem_cons_intro ?_ (forall_mem_cons_intro ?_
    (forall_mem_cons_intro ?_ (forall_mem_cons_intro ?_ (forall_mem_cons_intro ?_
    (forall_mem_cons_intro ?_ (forall_mem_cons_intro ?_ (forall_mem_cons_intro ?_
    (forall_mem_cons_intro ?_ (forall_mem_cons_intro ?_ (forall_mem_cons_intro ?_
    (forall_mem_cons_intro ?_ (forall_mem_cons_intro ?_ (forall_mem_cons_intro ?_
    (forall_mem_cons_intro ?_ (forall_mem_cons_intro ?_ (forall_mem_cons_intro ?_
    (forall_mem_cons_intro ?_ (forall_mem_cons_intro ?_ (forall_mem_cons_intro ?_
    (forall_mem_cons_intro ?_ (forall_mem_cons_intro ?_ (forall_mem_cons_intro ?_
    (forall_mem_cons_intro ?_ (forall_mem_cons_intro ?_ (forall_mem_cons_intro ?_
    (forall_mem_cons_intro ?_ (forall_mem_cons_intro ?_ (List.forall_mem_nil
    _)))))))))))))))))))))))))))))))))))))))))))))))))))))))))))))))))))))))))))))
  · exact not_mem_append2 (by decide) hscope.1
  · exact not_mem_append2 (by decide) hname.1
  · decide
  · decide
  · decide
  · exact not_mem_append3 (by decide) hconn.1 (by decide)
  · decide
  · decide
  · exact not_mem_append2 (by decide) hhosts.1
  · decide
  · decide
  · decide
  · exact not_mem_append2 (by decide) httl.1
  · exact not_mem_append2 (by decide) hloop.1
  · exact not_mem_append2 (by decide) hretry.1
  · decide
  · decide
  · decide
  · decide
  · decide
  · decide
  · decide
  · decide
  · decide
  · decide
  · decide
  · decide
  · decide
  · decide
  · decide
  · decide
  · exact not_mem_append2 (by decide) hsu.1
  · decide
  · decide
  · decide
  · exact not_mem_append3 (by decide) hru.1 (by decide)
  · exact not_mem_append3 (by decide) hru.1 (by decide)
  · decide
  · decide
  · exact not_mem_append3 (by decide) hru.1 (by decide)
  · exact not_mem_append3 (by decide) hru.1 (by decide)
  · decide
  · decide
  · decide
  · decide
  · decide
  · decide
  · decide
  · exact not_mem_append3 (by decide) hconn.1 (by decide)
  · exact not_mem_append2 (by decide) hdata.1
  · decide
  · decide
  · decide
  · decide
  · decide
  · decide
  · decide
  · decide
  · decide
  · decide
  · decide
  · decide
  · exact not_mem_append3 (by decide) hru.1 (by decide)
  · exact not_mem_append3 (by decide) hrp.1 (by decide)
  · decide
  · exact not_mem_append3 (by decide) hsu.1 (by decide)
  · exact not_mem_append3 (by decide) hsp.1 (by decide)
  · decide
  · exact not_mem_append3 (by decide) hau.1 (by decide)
  · exact not_mem_append3 (by decide) hap.1 (by decide)
  · exact not_mem_append3 (by decide) hadb.1 (by decide)
  · decide
  · decide
  · decide
  · exact not_mem_append3 (by decide) hcerts.1 (by decide)
  · exact not_mem_append3 (by decide) hcerts.1 (by decide)
  · exact not_mem_append3 (by decide) hcerts.1 (by decide)

theorem patroniYamlLines_no_cr (c : Config) (h : cleanConfig c) :
    ∀ l ∈ patroniYamlLines c, l.getLast? ≠ some '\r' := by
  obtain ⟨hscope, hname, hconn, hhosts, httl, hloop, hretry, hsu, hru, hrp, hsp, hau, hap, hadb, hdata, hcerts⟩ := h
  refine forall_mem_cons_intro ?_ (forall_mem_cons_intro ?_ (forall_mem_cons_intro ?_
    (forall_mem_cons_intro ?_ (forall_mem_cons_intro ?_ (forall_mem_cons_intro ?_
    (forall_mem_cons_intro ?_ (forall_mem_cons_intro ?_ (forall_mem_cons_intro ?_
    (forall_mem_cons_intro ?_ (forall_mem_cons_intro ?_ (forall_mem_cons_intro ?_
    (forall_mem_cons_intro ?_ (forall_mem_cons_intro ?_ (forall_mem_cons_intro ?_
    (forall_mem_cons_intro ?_ (forall_mem_cons_intro ?_ (forall_mem_cons_intro ?_
    (forall_mem_cons_intro ?_ (forall_mem_cons_intro ?_ (forall_mem_cons_intro ?_
    (forall_mem_cons_intro ?_ (forall_mem_cons_intro ?_ (forall_mem_cons_intro ?_
    (forall_mem_cons_intro ?_ (forall_mem_cons_intro ?_ (forall_mem_cons_intro ?_
    (forall_mem_cons_intro ?_ (forall_mem_cons_intro ?_ (forall_mem_cons_intro ?_
    (forall_mem_cons_intro ?_ (forall_mem_cons_intro ?_ (forall_mem_cons_intro ?_
    (forall_mem_cons_intro ?_ (forall_mem_cons_intro ?_ (forall_mem_cons_intro ?_
    (forall_mem_cons_intro ?_ (forall_mem_cons_intro ?_ (forall_mem_cons_intro ?_
    (forall_mem_cons_intro ?_ (forall_mem_cons_intro ?_ (forall_mem_cons_intro ?_
    (forall_mem_cons_intro ?_ (forall_mem_cons_intro ?_ (forall_mem_cons_intro ?_
    (forall_mem_cons_intro ?_ (forall_mem_cons_intro ?_ (forall_mem_cons_intro ?_
    (forall_mem_cons_intro ?_ (forall_mem_cons_intro ?_ (forall_mem_cons_intro ?_
    (forall_mem_cons_intro ?_ (forall_mem_cons_intro ?_ (forall_mem_cons_intro ?_
    (forall_mem_cons_intro ?_ (forall_mem_cons_intro ?_ (forall_mem_cons_intro ?_
    (forall_mem_cons_intro ?_ (forall_mem_cons_intro ?_ (forall_mem_cons_intro ?_
    (forall_mem_cons_intro ?_ (forall_mem_cons_intro ?_ (forall_mem_cons_intro ?_
    (forall_mem_cons_intro ?_ (forall_mem_cons_intro ?_ (forall_mem_cons_intro ?_
    (forall_mem_cons_intro ?_ (forall_mem_cons_intro ?_ (forall_mem_cons_intro ?_
    (forall_mem_cons_intro ?_ (forall_mem_cons_intro ?_ (forall_mem_cons_intro ?_
    (forall_mem_cons_intro ?_ (forall_mem_cons_intro ?_ (forall_mem_cons_intro ?_
    (forall_mem_cons_intro ?_ (forall_mem_cons_intro ?_ (List.forall_mem_nil
    _)))))))))))))))))))))))))))))))))))))))))))))))))))))))))))))))))))))))))))))
  · exact getLast?_ne_of_not_mem (not_mem_append2 (by decide) hscope.2)
  · exact getLast?_ne_of_not_mem (not_mem_append2 (by decide) hname.2)
  · decide
  · decide
  · decide
  · exact getLast?_ne_of_not_mem (not_mem_append3 (by decide) hconn.2 (by decide))
  · decide
  · decide
  · exact getLast?_ne_of_not_mem (not_mem_append2 (by decide) hhosts.2)
  · decide
  · decide
  · decide
  · exact getLast?_ne_of_not_mem (not_mem_append2 (by decide) httl.2)
  · exact getLast?_ne_of_not_mem (not_mem_append2 (by decide) hloop.2)
  · exact getLast?_ne_of_not_mem (not_mem_append2 (by decide) hretry.2)
  · decide
  · decide
  · decide
  · decide
  · decide
  · decide
  · decide
  · decide
  · decide
  · decide
  · decide
  · decide
  · decide
  · decide
  · decide
  · decide
  · exact getLast?_ne_of_not_mem (not_mem_append2 (by decide) hsu.2)
  · decide
  · decide
  · decide
  · exact getLast?_ne_of_not_mem (not_mem_append3 (by decide) hru.2 (by decide))
  · exact getLast?_ne_of_not_mem (not_mem_append3 (by decide) hru.2 (by decide))
  · decide
  · decide
  · exact getLast?_ne_of_not_mem (not_mem_append3 (by decide) hru.2 (by decide))
  · exact getLast?_ne_of_not_mem (not_mem_append3 (by decide) hru.2 (by decide))
  · decide
  · decide
  · decide
  · decide
  · decide
  · decide
  · decide
  · exact getLast?_ne_of_not_mem (not_mem_append3 (by decide) hconn.2 (by decide))
  · exact getLast?_ne_of_not_mem (not_mem_append2 (by decide) hdata.2)
  · decide
  · decide
  · decide
  · decide
  · decide
  · decide
  · decide
  · decide
  · decide
  · decide
  · decide
  · decide
  · exact getLast?_ne_of_not_mem (not_mem_append3 (by decide) hru.2 (by decide))
  · exact getLast?_ne_of_not_mem (not_mem_append3 (by decide) hrp.2 (by decide))
  · decide
  · exact getLast?_ne_of_not_mem (not_mem_append3 (by decide) hsu.2 (by decide))
  · exact getLast?_ne_of_not_mem (not_mem_append3 (by decide) hsp.2 (by decide))
  · decide
  · exact getLast?_ne_of_not_mem (not_mem_append3 (by decide) hau.2 (by decide))
  · exact getLast?_ne_of_not_mem (not_mem_append3 (by decide) hap.2 (by decide))
  · exact getLast?_ne_of_not_mem (not_mem_append3 (by decide) hadb.2 (by decide))
  · decide
  · decide
  · decide
  · exact getLast?_ne_of_not_mem (not_mem_append3 (by decide) hcerts.2 (by decide))
  · exact getLast?_ne_of_not_mem (not_mem_append3 (by decide) hcerts.2 (by decide))
  · exact getLast?_ne_of_not_mem (not_mem_append3 (by decide) hcerts.2 (by decide))

theorem rustLines_patroni (c : Config) (h : cleanConfig c) :
    rustLines (generate_patroni_config c) = patroniYamlLines c :=
  rustLines_joinLines (patroniYamlLines c)
    (patroniYamlLines_no_newline c h) (patroniYamlLines_no_cr c h)

/-! ### Segment views of the template, for the scanner proofs -/

def preAuth (c : Config) : List Str := [
  "scope: ".toList ++ c.scope,
  "name: ".toList ++ c.name,
  [],
  "restapi:".toList,
  "  listen: 0.0.0.0:8008".toList,
  "  connect_address: ".toList ++ c.connect_address ++ ":8008".toList,
  [],
  "etcd3:".toList,
  "  hosts: ".toList ++ c.etcd_hosts,
  [],
  "bootstrap:".toList,
  "  dcs:".toList,
  "    ttl: ".toList ++ c.ttl,
  "    loop_wait: ".toList ++ c.loop_wait,
  "    retry_timeout: ".toList ++ c.retry_timeout,
  "    maximum_lag_on_failover: 1048576".toList,
  "    failsafe_mode: true".toList,
  "    postgresql:".toList,
  "      use_pg_rewind: true".toList,
  "      use_slots: true".toList,
  "      parameters:".toList,
  "        wal_level: replica".toList,
  "        hot_standby: \"on\"".toList,
  "        max_wal_senders: 10".toList,
  "        max_replication_slots: 10".toList,
  "        max_connections: 200".toList,
  "        password_encryption: scram-sha-256".toList,
  [],
  "  initdb:".toList,
  "    - encoding: UTF8".toList,
  "    - data-checksums".toList,
  "    - username: ".toList ++ c.superuser,
  [],
  "  pg_hba:".toList,
  "    - local all all trust".toList,
  "    - hostssl replication ".toList ++ c.repl_user ++ " 0.0.0.0/0 scram-sha-256".toList,
  "    - hostssl replication ".toList ++ c.repl_user ++ " ::/0 scram-sha-256".toList,
  "    - hostssl all all 0.0.0.0/0 scram-sha-256".toList,
  "    - hostssl all all ::/0 scram-sha-256".toList,
  "    - host replication ".toList ++ c.repl_user ++ " 0.0.0.0/0 scram-sha-256".toList,
  "    - host replication ".toList ++ c.repl_user ++ " ::/0 scram-sha-256".toList,
  "    - host all all 0.0.0.0/0 scram-sha-256".toList,
  "    - host all all ::/0 scram-sha-256".toList,
  [],
  "  post_bootstrap: /post_bootstrap.sh".toList,
  [],
  "postgresql:".toList,
  "  listen: \"*:5432\"".toList,
  "  connect_address: ".toList ++ c.connect_address ++ ":5432".toList,
  "  data_dir: ".toList ++ c.data_dir,
  "  pgpass: /tmp/pgpass".toList,
  "  callbacks:".toList,
  "    on_role_change: /on_role_change.sh".toList,
  "  remove_data_directory_on_rewind_failure: true".toList,
  "  remove_data_directory_on_diverged_timelines: true".toList,
  "  create_replica_methods:".toList,
  "    - basebackup".toList,
  "  basebackup:".toList,
  "    checkpoint: \"fast\"".toList,
  "    wal-method: \"stream\"".toList]

def fromAuth (c : Config) : List Str := [
  "  authentication:".toList,
  "    replication:".toList,
  "      username: \"".toList ++ c.repl_user ++ "\"".toList,
  "      password: \"".toList ++ c.repl_pass ++ "\"".toList,
  "    superuser:".toList,
  "      username: \"".toList ++ c.superuser ++ "\"".toList,
  "      password: \"".toList ++ c.superuser_pass ++ "\"".toList,
  "  app_user:".toList,
  "    username: \"".toList ++ c.app_user ++ "\"".toList,
  "    password: \"".toList ++ c.app_pass ++ "\"".toList,
  "    database: \"".toList ++ c.app_db ++ "\"".toList,
  "  parameters:".toList,
  "    unix_socket_directories: /var/run/postgresql".toList,
  "    ssl: \"on\"".toList,
  "    ssl_cert_file: \"".toList ++ c.certs_dir ++ "/server.crt\"".toList,
  "    ssl_key_file: \"".toList ++ c.certs_dir ++ "/server.key\"".toList,
  "    ssl_ca_file: \"".toList ++ c.certs_dir ++ "/root.crt\"".toList]

def preApp (c : Config) : List Str := [
  "scope: ".toList ++ c.scope,
  "name: ".toList ++ c.name,
  [],
  "restapi:".toList,
  "  listen: 0.0.0.0:8008".toList,
  "  connect_address: ".toList ++ c.connect_address ++ ":8008".toList,
  [],
  "etcd3:".toList,
  "  hosts: ".toList ++ c.etcd_hosts,
  [],
  "bootstrap:".toList,
  "  dcs:".toList,
  "    ttl: ".toList ++ c.ttl,
  "    loop_wait: ".toList ++ c.loop_wait,
  "    retry_timeout: ".toList ++ c.retry_timeout,
  "    maximum_lag_on_failover: 1048576".toList,
  "    failsafe_mode: true".toList,
  "    postgresql:".toList,
  "      use_pg_rewind: true".toList,
  "      use_slots: true".toList,
  "      parameters:".toList,
  "        wal_level: replica".toList,
  "        hot_standby: \"on\"".toList,
  "        max_wal_senders: 10".toList,
  "        max_replication_slots: 10".toList,
  "        max_connections: 200".toList,
  "        password_encryption: scram-sha-256".toList,
  [],
  "  initdb:".toList,
  "    - encoding: UTF8".toList,
  "    - data-checksums".toList,
  "    - username: ".toList ++ c.superuser,
  [],
  "  pg_hba:".toList,
  "    - local all all trust".toList,
  "    - hostssl replication ".toList ++ c.repl_user ++ " 0.0.0.0/0 scram-sha-256".toList,
  "    - hostssl replication ".toList ++ c.repl_user ++ " ::/0 scram-sha-256".toList,
  "    - hostssl all all 0.0.0.0/0 scram-sha-256".toList,
  "    - hostssl all all ::/0 scram-sha-256".toList,
  "    - host replication ".toList ++ c.repl_user ++ " 0.0.0.0/0 scram-sha-256".toList,
  "    - host replication ".toList ++ c.repl_user ++ " ::/0 scram-sha-256".toList,
  "    - host all all 0.0.0.0/0 scram-sha-256".toList,
  "    - host all all ::/0 scram-sha-256".toList,
  [],
  "  post_bootstrap: /post_bootstrap.sh".toList,
  [],
  "postgresql:".toList,
  "  listen: \"*:5432\"".toList,
  "  connect_address: ".toList ++ c.connect_address ++ ":5432".toList,
  "  data_dir: ".toList ++ c.data_dir,
  "  pgpass: /tmp/pgpass".toList,
  "  callbacks:".toList,
  "    on_role_change: /on_role_change.sh".toList,
  "  remove_data_directory_on_rewind_failure: true".toList,
  "  remove_data_directory_on_diverged_timelines: true".toList,
  "  create_replica_methods:".toList,
  "    - basebackup".toList,
  "  basebackup:".toList,
  "    checkpoint: \"fast\"".toList,
  "    wal-method: \"stream\"".toList,
  "  authentication:".toList,
  "    replication:".toList,
  "      username: \"".toList ++ c.repl_user ++ "\"".toList,
  "      password: \"".toList ++ c.repl_pass ++ "\"".toList,
  "    superuser:".toList,
  "      username: \"".toList ++ c.superuser ++ "\"".toList,
  "      password: \"".toList ++ c.superuser_pass ++ "\"".toList]

def fromApp (c : Config) : List Str := [
  "  app_user:".toList,
  "    username: \"".toList ++ c.app_user ++ "\"".toList,
  "    password: \"".toList ++ c.app_pass ++ "\"".toList,
  "    database: \"".toList ++ c.app_db ++ "\"".toList,
  "  parameters:".toList,
  "    unix_socket_directories: /var/run/postgresql".toList,
  "    ssl: \"on\"".toList,
  "    ssl_cert_file: \"".toList ++ c.certs_dir ++ "/server.crt\"".toList,
  "    ssl_key_file: \"".toList ++ c.certs_dir ++ "/server.key\"".toList,
  "    ssl_ca_file: \"".toList ++ c.certs_dir ++ "/root.crt\"".toList]

theorem preAuth_no_auth (c : Config) :
    ∀ l ∈ preAuth c, List.isPrefixOf ("authentication".toList ++ [':'])
      (trimStart l) = false := by
  refine forall_mem_cons_intro ?_ (forall_mem_cons_intro ?_ (forall_mem_cons_intro ?_
    (forall_mem_cons_intro ?_ (forall_mem_cons_intro ?_ (forall_mem_cons_intro ?_
    (forall_mem_cons_intro ?_ (forall_mem_cons_intro ?_ (forall_mem_cons_intro ?_
    (forall_mem_cons_intro ?_ (forall_mem_cons_intro ?_ (forall_mem_cons_intro ?_
    (forall_mem_cons_intro ?_ (forall_mem_cons_intro ?_ (forall_mem_cons_intro ?_
    (forall_mem_cons_intro ?_ (forall_mem_cons_intro ?_ (forall_mem_cons_intro ?_
    (forall_mem_cons_intro ?_ (forall_mem_cons_intro ?_ (forall_mem_cons_intro ?_
    (forall_mem_cons_intro ?_ (forall_mem_cons_intro ?_ (forall_mem_cons_intro ?_
    (forall_mem_cons_intro ?_ (forall_mem_cons_intro ?_ (forall_mem_cons_intro ?_
    (forall_mem_cons_intro ?_ (forall_mem_cons_intro ?_ (forall_mem_cons_intro ?_
    (forall_mem_cons_intro ?_ (forall_mem_cons_intro ?_ (forall_mem_cons_intro ?_
    (forall_mem_cons_intro ?_ (forall_mem_cons_intro ?_ (forall_mem_cons_intro ?_
    (forall_mem_cons_intro ?_ (forall_mem_cons_intro ?_ (forall_mem_cons_intro ?_
    (forall_mem_cons_intro ?_ (forall_mem_cons_intro ?_ (forall_mem_cons_intro ?_
    (forall_mem_cons_intro ?_ (forall_mem_cons_intro ?_ (forall_mem_cons_intro ?_
    (forall_mem_cons_intro ?_ (forall_mem_cons_intro ?_ (forall_mem_cons_intro ?_
    (forall_mem_cons_intro ?_ (forall_mem_cons_intro ?_ (forall_mem_cons_intro ?_
    (forall_mem_cons_intro ?_ (forall_mem_cons_intro ?_ (forall_mem_cons_intro ?_
    (forall_mem_cons_intro ?_ (forall_mem_cons_intro ?_ (forall_mem_cons_intro ?_
    (forall_mem_cons_intro ?_ (forall_mem_cons_intro ?_ (forall_mem_cons_intro ?_
    (List.forall_mem_nil _))))))))))))))))))))))))))))))))))))))))))))))))))))))))))))
  · rw [trimStart_append "scope: ".toList c.scope (by decide)]
    exact prefix_mismatch _ _ _ (by decide)
  · rw [trimStart_append "name: ".toList c.name (by decide)]
    exact prefix_mismatch _ _ _ (by decide)
  · decide
  · decide
  · decide
  · rw [List.append_assoc, trimStart_append "  connect_address: ".toList (c.connect_address ++ ":8008".toList) (by decide)]
    exact prefix_mismatch _ _ _ (by decide)
  · decide
  · decide
  · rw [trimStart_append "  hosts: ".toList c.etcd_hosts (by decide)]
    exact prefix_mismatch _ _ _ (by decide)
  · decide
  · decide
  · decide
  · rw [trimStart_append "    ttl: ".toList c.ttl (by decide)]
    exact prefix_mismatch _ _ _ (by decide)
  · rw [trimStart_append "    loop_wait: ".toList c.loop_wait (by decide)]
    exact prefix_mismatch _ _ _ (by decide)
  · rw [trimStart_append "    retry_timeout: ".toList c.retry_timeout (by decide)]
    exact prefix_mismatch _ _ _ (by decide)
  · decide
  · decide
  · decide
  · decide
  · decide
  · decide
  · decide
  · decide
  · decide
  · decide
  · decide
  · decide
  · decide
  · decide
  · decide
  · decide
  · rw [trimStart_append "    - username: ".toList c.superuser (by decide)]
    exact prefix_mismatch _ _ _ (by decide)
  · decide
  · decide
  · decide
  · rw [List.append_assoc, trimStart_append "    - hostssl replication ".toList (c.repl_user ++ " 0.0.0.0/0 scram-sha-256".toList) (by decide)]
    exact prefix_mismatch _ _ _ (by decide)
  · rw [List.append_assoc, trimStart_append "    - hostssl replication ".toList (c.repl_user ++ " ::/0 scram-sha-256".toList) (by decide)]
    exact prefix_mismatch _ _ _ (by decide)
  · decide
  · decide
  · rw [List.append_assoc, trimStart_append "    - host replication ".toList (c.repl_user ++ " 0.0.0.0/0 scram-sha-256".toList) (by decide)]
    exact prefix_mismatch _ _ _ (by decide)
  · rw [List.append_assoc, trimStart_append "    - host replication ".toList (c.repl_user ++ " ::/0 scram-sha-256".toList) (by decide)]
    exact prefix_mismatch _ _ _ (by decide)
  · decide
  · decide
  · decide
  · decide
  · decide
  · decide
  · decide
  · rw [List.append_assoc, trimStart_append "  connect_address: ".toList (c.connect_address ++ ":5432".toList) (by decide)]
    exact prefix_mismatch _ _ _ (by decide)
  · rw [trimStart_append "  data_dir: ".toList c.data_dir (by decide)]
    exact prefix_mismatch _ _ _ (by decide)
  · decide
  · decide
  · decide
  · decide
  · decide
  · decide
  · decide
  · decide
  · decide
  · decide

theorem preApp_no_app (c : Config) :
    ∀ l ∈ preApp c, List.isPrefixOf ("app_user".toList ++ [':'])
      (trimStart l) = false := by
  refine forall_mem_cons_intro ?_ (forall_mem_cons_intro ?_ (forall_mem_cons_intro ?_
    (forall_mem_cons_intro ?_ (forall_mem_cons_intro ?_ (forall_mem_cons_intro ?_
    (forall_mem_cons_intro ?_ (forall_mem_cons_intro ?_ (forall_mem_cons_intro ?_
    (forall_mem_cons_intro ?_ (forall_mem_cons_intro ?_ (forall_mem_cons_intro ?_
    (forall_mem_cons_intro ?_ (forall_mem_cons_intro ?_ (forall_mem_cons_intro ?_
    (forall_mem_cons_intro ?_ (forall_mem_cons_intro ?_ (forall_mem_cons_intro ?_
    (forall_mem_cons_intro ?_ (forall_mem_cons_intro ?_ (forall_mem_cons_intro ?_
    (forall_mem_cons_intro ?_ (forall_mem_cons_intro ?_ (forall_mem_cons_intro ?_
    (forall_mem_cons_intro ?_ (forall_mem_cons_intro ?_ (forall_mem_cons_intro ?_
    (forall_mem_cons_intro ?_ (forall_mem_cons_intro ?_ (forall_mem_cons_intro ?_
    (forall_mem_cons_intro ?_ (forall_mem_cons_intro ?_ (forall_mem_cons_intro ?_
    (forall_mem_cons_intro ?_ (forall_mem_cons_intro ?_ (forall_mem_cons_intro ?_
    (forall_mem_cons_intro ?_ (forall_mem_cons_intro ?_ (forall_mem_cons_intro ?_
    (forall_mem_cons_intro ?_ (forall_mem_cons_intro ?_ (forall_mem_cons_intro ?_
    (forall_mem_cons_intro ?_ (forall_mem_cons_intro ?_ (forall_mem_cons_intro ?_
    (forall_mem_cons_intro ?_ (forall_mem_cons_intro ?_ (forall_mem_cons_intro ?_
    (forall_mem_cons_intro ?_ (forall_mem_cons_intro ?_ (forall_mem_cons_intro ?_
    (forall_mem_cons_intro ?_ (forall_mem_cons_intro ?_ (forall_mem_cons_intro ?_
    (forall_mem_cons_intro ?_ (forall_mem_cons_intro ?_ (forall_mem_cons_intro ?_
    (forall_mem_cons_intro ?_ (forall_mem_cons_intro ?_ (forall_mem_cons_intro ?_
    (forall_mem_cons_intro ?_ (forall_mem_cons_intro ?_ (forall_mem_cons_intro ?_
    (forall_mem_cons_intro ?_ (forall_mem_cons_intro ?_ (forall_mem_cons_intro ?_
    (forall_mem_cons_intro ?_ (List.forall_mem_nil
    _)))))))))))))))))))))))))))))))))))))))))))))))))))))))))))))))))))
  · rw [trimStart_append "scope: ".toList c.scope (by decide)]
    exact prefix_mismatch _ _ _ (by decide)
  · rw [trimStart_append "name: ".toList c.name (by decide)]
    exact prefix_mismatch _ _ _ (by decide)
  · decide
  · decide
  · decide
  · rw [List.append_assoc, trimStart_append "  connect_address: ".toList (c.connect_address ++ ":8008".toList) (by decide)]
    exact prefix_mismatch _ _ _ (by decide)
  · decide
  · decide
  · rw [trimStart_append "  hosts: ".toList c.etcd_hosts (by decide)]
    exact prefix_mismatch _ _ _ (by decide)
  · decide
  · decide
  · decide
  · rw [trimStart_append "    ttl: ".toList c.ttl (by decide)]
    exact prefix_mismatch _ _ _ (by decide)
  · rw [trimStart_append "    loop_wait: ".toList c.loop_wait (by decide)]
    exact prefix_mismatch _ _ _ (by decide)
  · rw [trimStart_append "    retry_timeout: ".toList c.retry_timeout (by decide)]
    exact prefix_mismatch _ _ _ (by decide)
  · decide
  · decide
  · decide
  · decide
  · decide
  · decide
  · decide
  · decide
  · decide
  · decide
  · decide
  · decide
  · decide
  · decide
  · decide
  · decide
  · rw [trimStart_append "    - username: ".toList c.superuser (by decide)]
    exact prefix_mismatch _ _ _ (by decide)
  · decide
  · decide
  · decide
  · rw [List.append_assoc, trimStart_append "    - hostssl replication ".toList (c.repl_user ++ " 0.0.0.0/0 scram-sha-256".toList) (by decide)]
    exact prefix_mismatch _ _ _ (by decide)
  · rw [List.append_assoc, trimStart_append "    - hostssl replication ".toList (c.repl_user ++ " ::/0 scram-sha-256".toList) (by decide)]
    exact prefix_mismatch _ _ _ (by decide)
  · decide
  · decide
  · rw [List.append_assoc, trimStart_append "    - host replication ".toList (c.repl_user ++ " 0.0.0.0/0 scram-sha-256".toList) (by decide)]
    exact prefix_mismatch _ _ _ (by decide)
  · rw [List.append_assoc, trimStart_append "    - host replication ".toList (c.repl_user ++ " ::/0 scram-sha-256".toList) (by decide)]
    exact prefix_mismatch _ _ _ (by decide)
  · decide
  · decide
  · decide
  · decide
  · decide
  · decide
  · decide
  · rw [List.append_assoc, trimStart_append "  connect_address: ".toList (c.connect_address ++ ":5432".toList) (by decide)]
    exact prefix_mismatch _ _ _ (by decide)
  · rw [trimStart_append "  data_dir: ".toList c.data_dir (by decide)]
    exact prefix_mismatch _ _ _ (by decide)
  · decide
  · decide
  · decide
  · decide
  · decide
  · decide
  · decide
  · decide
  · decide
  · decide
  · decide
  · decide
  · rw [List.append_assoc, trimStart_append "      username: \"".toList (c.repl_user ++ "\"".toList) (by decide)]
    exact prefix_mismatch _ _ _ (by decide)
  · rw [List.append_assoc, trimStart_append "      password: \"".toList (c.repl_pass ++ "\"".toList) (by decide)]
    exact prefix_mismatch _ _ _ (by decide)
  · decide
  · rw [List.append_assoc, trimStart_append "      username: \"".toList (c.superuser ++ "\"".toList) (by decide)]
    exact prefix_mismatch _ _ _ (by decide)
  · rw [List.append_assoc, trimStart_append "      password: \"".toList (c.superuser_pass ++ "\"".toList) (by decide)]
    exact prefix_mismatch _ _ _ (by decide)


/-! ### One-line and one-block steps of the YAML scanners -/

theorem nested_skip_block (s1 s2 key : Str) (block rest : List Str)
    (in2 : Bool) (i1 i2 : Nat)
    (h : ∀ l ∈ block, List.isPrefixOf (s1 ++ [':']) (trimStart l) = false) :
    extractNestedGo s1 s2 key (block ++ rest) false in2 i1 i2
      = extractNestedGo s1 s2 key rest false in2 i1 i2 := by
  induction block with
  | nil => rw [List.nil_append]
  | cons l t ih =>
    rw [List.cons_append]
    have hl : List.isPrefixOf (s1 ++ [':']) (trimStart l) = false :=
      h l (List.mem_cons_self l t)
    have hstep : extractNestedGo s1 s2 key (l :: (t ++ rest)) false in2 i1 i2
        = extractNestedGo s1 s2 key (t ++ rest) false in2 i1 i2 := by
      simp [extractNestedGo, hl]
    rw [hstep]
    exact ih (fun x hx => h x (List.mem_cons_of_mem l hx))

theorem yaml_skip_block (sec key : Str) (block rest : List Str) (si : Nat)
    (h : ∀ l ∈ block, List.isPrefixOf (sec ++ [':']) (trimStart l) = false) :
    extractYamlGo sec key (block ++ rest) false si
      = extractYamlGo sec key rest false si := by
  induction block with
  | nil => rw [List.nil_append]
  | cons l t ih =>
    rw [List.cons_append]
    have hl : List.isPrefixOf (sec ++ [':']) (trimStart l) = false :=
      h l (List.mem_cons_self l t)
    have hstep : extractYamlGo sec key (l :: (t ++ rest)) false si
        = extractYamlGo sec key (t ++ rest) false si := by
      simp [extractYamlGo, hl]
    rw [hstep]
    exact ih (fun x hx => h x (List.mem_cons_of_mem l hx))

theorem nested_hit (s1 s2 key body line : Str) (rest : List Str)
    (i1 i2 k : Nat)
    (hline : line = List.replicate k ' ' ++ body)
    (hh : headNonWs body = true)
    (h1 : List.isPrefixOf (s1 ++ [':']) body = false)
    (h2 : List.isPrefixOf (s2 ++ [':']) body = false)
    (hk1 : ¬ k ≤ i1) (hk2 : ¬ k ≤ i2)
    (h3 : List.isPrefixOf (key ++ [':']) body = true) :
    extractNestedGo s1 s2 key (line :: rest) true true i1 i2
      = parse_yaml_value body := by
  subst hline
  have hts := trimStart_replicate k body hh
  have hlen := replicate_append_length k body
  simp [extractNestedGo, hts, hlen, h1, h2, h3, hk1, hk2]

theorem nested_skip_inner (s1 s2 key body line : Str) (rest : List Str)
    (i1 i2 k : Nat)
    (hline : line = List.replicate k ' ' ++ body)
    (hh : headNonWs body = true)
    (h1 : List.isPrefixOf (s1 ++ [':']) body = false)
    (h2 : List.isPrefixOf (s2 ++ [':']) body = false)
    (hk1 : ¬ k ≤ i1) (hk2 : ¬ k ≤ i2)
    (h3 : List.isPrefixOf (key ++ [':']) body = false) :
    extractNestedGo s1 s2 key (line :: rest) true true i1 i2
      = extractNestedGo s1 s2 key rest true true i1 i2 := by
  subst hline
  have hts := trimStart_replicate k body hh
  have hlen := replicate_append_length k body
  simp [extractNestedGo, hts, hlen, h1, h2, h3, hk1, hk2]

theorem nested_skip_outer (s1 s2 key body line : Str) (rest : List Str)
    (i1 i2 k : Nat)
    (hline : line = List.replicate k ' ' ++ body)
    (hh : headNonWs body = true)
    (h1 : List.isPrefixOf (s1 ++ [':']) body = false)
    (h2 : List.isPrefixOf (s2 ++ [':']) body = false)
    (hk1 : ¬ k ≤ i1) :
    extractNestedGo s1 s2 key (line :: rest) true false i1 i2
      = extractNestedGo s1 s2 key rest true false i1 i2 := by
  subst hline
  have hts := trimStart_replicate k body hh
  have hlen := replicate_append_length k body
  simp [extractNestedGo, hts, hlen, h1, h2, hk1]

theorem yaml_hit (sec key body line : Str) (rest : List Str) (si k : Nat)
    (hline : line = List.replicate k ' ' ++ body)
    (hh : headNonWs body = true)
    (h1 : List.isPrefixOf (sec ++ [':']) body = false)
    (hk1 : ¬ k ≤ si)
    (h3 : List.isPrefixOf (key ++ [':']) body = true) :
    extractYamlGo sec key (line :: rest) true si = parse_yaml_value body := by
  subst hline
  have hts := trimStart_replicate k body hh
  have hlen := replicate_append_length k body
  simp [extractYamlGo, hts, hlen, h1, h3, hk1]

theorem yaml_skip_inner (sec key body line : Str) (rest : List Str) (si k : Nat)
    (hline : line = List.replicate k ' ' ++ body)
    (hh : headNonWs body = true)
    (h1 : List.isPrefixOf (sec ++ [':']) body = false)
    (hk1 : ¬ k ≤ si)
    (h3 : List.isPrefixOf (key ++ [':']) body = false) :
    extractYamlGo sec key (line :: rest) true si
      = extractYamlGo sec key rest true si := by
  subst hline
  have hts := trimStart_replicate k body hh
  have hlen := replicate_append_length k body
  simp [extractYamlGo, hts, hlen, h1, h3, hk1]



/-! ### Entering a section at a concrete header line -/

theorem nested_enter (s1 s2 key line : Str) (rest : List Str)
    (b in2 : Bool) (i1 i2 k : Nat)
    (hline : line = List.replicate k ' ' ++ (s1 ++ [':']))
    (hh : headNonWs (s1 ++ [':']) = true) :
    extractNestedGo s1 s2 key (line :: rest) b in2 i1 i2
      = extractNestedGo s1 s2 key rest true in2 k i2 := by
  subst hline
  have hts := trimStart_replicate k (s1 ++ [':']) hh
  have hlen := replicate_append_length k (s1 ++ [':'])
  have hpre : List.isPrefixOf (s1 ++ [':']) (s1 ++ [':']) = true := by
    rw [ List.isPrefixOf_iff_prefix]
  simp [extractNestedGo, hts, hlen, hpre]

theorem nested_enter2 (s1 s2 key line : Str) (rest : List Str)
    (in2 : Bool) (i1 i2 k : Nat)
    (hline : line = List.replicate k ' ' ++ (s2 ++ [':']))
    (hh : headNonWs (s2 ++ [':']) = true)
    (h1 : List.isPrefixOf (s1 ++ [':']) (s2 ++ [':']) = false)
    (hk1 : ¬ k ≤ i1) :
    extractNestedGo s1 s2 key (line :: rest) true in2 i1 i2
      = extractNestedGo s1 s2 key rest true true i1 k := by
  subst hline
  have hts := trimStart_replicate k (s2 ++ [':']) hh
  have hlen := replicate_append_length k (s2 ++ [':'])
  have hpre : List.isPrefixOf (s2 ++ [':']) (s2 ++ [':']) = true := by
    rw [ List.isPrefixOf_iff_prefix]
  simp [extractNestedGo, hts, hlen, h1, hpre, hk1]

theorem yaml_enter (sec key line : Str) (rest : List Str)
    (b : Bool) (si k : Nat)
    (hline : line = List.replicate k ' ' ++ (sec ++ [':']))
    (hh : headNonWs (sec ++ [':']) = true) :
    extractYamlGo sec key (line :: rest) b si
      = extractYamlGo sec key rest true k := by
  subst hline
  have hts := trimStart_replicate k (sec ++ [':'])  hh
  have hlen := replicate_append_length k (sec ++ [':'])
  have hpre : List.isPrefixOf (sec ++ [':']) (sec ++ [':']) = true := by
    rw [ List.isPrefixOf_iff_prefix]
  simp [extractYamlGo, hts, hlen, hpre]

/-! ### The seven credential extractions on the rendered template -/

theorem scan_repl_user (c : Config) (hv : quoteClean c.repl_user) :
    extractNestedGo "authentication".toList "replication".toList
      "username".toList
      (patroniYamlLines c) false false 0 0 = some c.repl_user := by
  rw [show patroniYamlLines c = preAuth c
      ++ ("  authentication:".toList :: "    replication:".toList
        :: ["      username: \"".toList ++ c.repl_user ++ "\"".toList,
        "      password: \"".toList ++ c.repl_pass ++ "\"".toList,
        "    superuser:".toList,
        "      username: \"".toList ++ c.superuser ++ "\"".toList,
        "      password: \"".toList ++ c.superuser_pass ++ "\"".toList,
        "  app_user:".toList,
        "    username: \"".toList ++ c.app_user ++ "\"".toList,
        "    password: \"".toList ++ c.app_pass ++ "\"".toList,
        "    database: \"".toList ++ c.app_db ++ "\"".toList,
        "  parameters:".toList,
        "    unix_socket_directories: /var/run/postgresql".toList,
        "    ssl: \"on\"".toList,
        "    ssl_cert_file: \"".toList ++ c.certs_dir ++ "/server.crt\"".toList,
        "    ssl_key_file: \"".toList ++ c.certs_dir ++ "/server.key\"".toList,
        "    ssl_ca_file: \"".toList ++ c.certs_dir ++ "/root.crt\"".toList]) from rfl]
  rw [nested_skip_block _ _ _ _ _ _ _ _ (preAuth_no_auth c)]
  have e60 : "  authentication:".toList
      = List.replicate 2 ' ' ++ ("authentication".toList ++ [':']) := rfl
  rw [nested_enter _ _ _ _ _ _ _ _ _ _ e60 rfl]
  have e61 : "    replication:".toList
      = List.replicate 4 ' ' ++ ("replication".toList ++ [':']) := rfl
  rw [nested_enter2 _ _ _ _ _ _ _ _ _ e61 rfl (by decide) (by decide)]
  have h62 : "      username: \"".toList ++ c.repl_user ++ "\"".toList
      = List.replicate 6 ' '
        ++ ("username".toList ++ ':' :: ' ' :: '"' :: (c.repl_user ++ ['"'])) := rfl
  rw [nested_hit _ _ _ _ _ _ _ _ _ h62 rfl
    (prefix_mismatch _ _ _ (by decide)) (prefix_mismatch _ _ _ (by decide))
    (by decide) (by decide) (prefix_key_colon _ _)]
  exact parse_quoted_line _ _ (by decide) hv

theorem scan_repl_pass (c : Config) (hv : quoteClean c.repl_pass) :
    extractNestedGo "authentication".toList "replication".toList
      "password".toList
      (patroniYamlLines c) false false 0 0 = some c.repl_pass := by
  rw [show patroniYamlLines c = preAuth c
      ++ ("  authentication:".toList :: "    replication:".toList
        :: ["      username: \"".toList ++ c.repl_user ++ "\"".toList,
        "      password: \"".toList ++ c.repl_pass ++ "\"".toList,
        "    superuser:".toList,
        "      username: \"".toList ++ c.superuser ++ "\"".toList,
        "      password: \"".toList ++ c.superuser_pass ++ "\"".toList,
        "  app_user:".toList,
        "    username: \"".toList ++ c.app_user ++ "\"".toList,
        "    password: \"".toList ++ c.app_pass ++ "\"".toList,
        "    database: \"".toList ++ c.app_db ++ "\"".toList,
        "  parameters:".toList,
        "    unix_socket_directories: /var/run/postgresql".toList,
        "    ssl: \"on\"".toList,
        "    ssl_cert_file: \"".toList ++ c.certs_dir ++ "/server.crt\"".toList,
        "    ssl_key_file: \"".toList ++ c.certs_dir ++ "/server.key\"".toList,
        "    ssl_ca_file: \"".toList ++ c.certs_dir ++ "/root.crt\"".toList]) from rfl]
  rw [nested_skip_block _ _ _ _ _ _ _ _ (preAuth_no_auth c)]
  have e60 : "  authentication:".toList
      = List.replicate 2 ' ' ++ ("authentication".toList ++ [':']) := rfl
  rw [nested_enter _ _ _ _ _ _ _ _ _ _ e60 rfl]
  have e61 : "    replication:".toList
      = List.replicate 4 ' ' ++ ("replication".toList ++ [':']) := rfl
  rw [nested_enter2 _ _ _ _ _ _ _ _ _ e61 rfl (by decide) (by decide)]
  have h62 : "      username: \"".toList ++ c.repl_user ++ "\"".toList
      = List.replicate 6 ' '
        ++ ("username".toList ++ ':' :: ' ' :: '"' :: (c.repl_user ++ ['"'])) := rfl
  rw [nested_skip_inner _ _ _ _ _ _ _ _ _ h62 rfl
    (prefix_mismatch _ _ _ (by decide)) (prefix_mismatch _ _ _ (by decide))
    (by decide) (by decide) (prefix_mismatch _ _ _ (by decide))]
  have h63 : "      password: \"".toList ++ c.repl_pass ++ "\"".toList
      = List.replicate 6 ' '
        ++ ("password".toList ++ ':' :: ' ' :: '"' :: (c.repl_pass ++ ['"'])) := rfl
  rw [nested_hit _ _ _ _ _ _ _ _ _ h63 rfl
    (prefix_mismatch _ _ _ (by decide)) (prefix_mismatch _ _ _ (by decide))
    (by decide) (by decide) (prefix_key_colon _ _)]
  exact parse_quoted_line _ _ (by decide) hv

theorem scan_superuser (c : Config) (hv : quoteClean c.superuser) :
    extractNestedGo "authentication".toList "superuser".toList
      "username".toList
      (patroniYamlLines c) false false 0 0 = some c.superuser := by
  rw [show patroniYamlLines c = preAuth c
      ++ ("  authentication:".toList :: "    replication:".toList
        :: ["      username: \"".toList ++ c.repl_user ++ "\"".toList,
        "      password: \"".toList ++ c.repl_pass ++ "\"".toList,
        "    superuser:".toList,
        "      username: \"".toList ++ c.superuser ++ "\"".toList,
        "      password: \"".toList ++ c.superuser_pass ++ "\"".toList,
        "  app_user:".toList,
        "    username: \"".toList ++ c.app_user ++ "\"".toList,
        "    password: \"".toList ++ c.app_pass ++ "\"".toList,
        "    database: \"".toList ++ c.app_db ++ "\"".toList,
        "  parameters:".toList,
        "    unix_socket_directories: /var/run/postgresql".toList,
        "    ssl: \"on\"".toList,
        "    ssl_cert_file: \"".toList ++ c.certs_dir ++ "/server.crt\"".toList,
        "    ssl_key_file: \"".toList ++ c.certs_dir ++ "/server.key\"".toList,
        "    ssl_ca_file: \"".toList ++ c.certs_dir ++ "/root.crt\"".toList]) from rfl]
  rw [nested_skip_block _ _ _ _ _ _ _ _ (preAuth_no_auth c)]
  have e60 : "  authentication:".toList
      = List.replicate 2 ' ' ++ ("authentication".toList ++ [':']) := rfl
  rw [nested_enter _ _ _ _ _ _ _ _ _ _ e60 rfl]
  have e61 : "    replication:".toList
      = List.replicate 4 ' ' ++ "replication:".toList := rfl
  rw [nested_skip_outer _ _ _ _ _ _ _ _ _ e61 rfl (by decide)
    (by decide) (by decide)]
  have h62 : "      username: \"".toList ++ c.repl_user ++ "\"".toList
      = List.replicate 6 ' '
        ++ ("username".toList ++ ':' :: ' ' :: '"' :: (c.repl_user ++ ['"'])) := rfl
  rw [nested_skip_outer _ _ _ _ _ _ _ _ _ h62 rfl
    (prefix_mismatch _ _ _ (by decide)) (prefix_mismatch _ _ _ (by decide))
    (by decide)]
  have h63 : "      password: \"".toList ++ c.repl_pass ++ "\"".toList
      = List.replicate 6 ' '
        ++ ("password".toList ++ ':' :: ' ' :: '"' :: (c.repl_pass ++ ['"'])) := rfl
  rw [nested_skip_outer _ _ _ _ _ _ _ _ _ h63 rfl
    (prefix_mismatch _ _ _ (by decide)) (prefix_mismatch _ _ _ (by decide))
    (by decide)]
  have e64 : "    superuser:".toList
      = List.replicate 4 ' ' ++ ("superuser".toList ++ [':']) := rfl
  rw [nested_enter2 _ _ _ _ _ _ _ _ _ e64 rfl (by decide) (by decide)]
  have h65 : "      username: \"".toList ++ c.superuser ++ "\"".toList
      = List.replicate 6 ' '
        ++ ("username".toList ++ ':' :: ' ' :: '"' :: (c.superuser ++ ['"'])) := rfl
  rw [nested_hit _ _ _ _ _ _ _ _ _ h65 rfl
    (prefix_mismatch _ _ _ (by decide)) (prefix_mismatch _ _ _ (by decide))
    (by decide) (by decide) (prefix_key_colon _ _)]
  exact parse_quoted_line _ _ (by decide) hv

theorem scan_superuser_pass (c : Config) (hv : quoteClean c.superuser_pass) :
    extractNestedGo "authentication".toList "superuser".toList
      "password".toList
      (patroniYamlLines c) false false 0 0 = some c.superuser_pass := by
  rw [show patroniYamlLines c = preAuth c
      ++ ("  authentication:".toList :: "    replication:".toList
        :: ["      username: \"".toList ++ c.repl_user ++ "\"".toList,
        "      password: \"".toList ++ c.repl_pass ++ "\"".toList,
        "    superuser:".toList,
        "      username: \"".toList ++ c.superuser ++ "\"".toList,
        "      password: \"".toList ++ c.superuser_pass ++ "\"".toList,
        "  app_user:".toList,
        "    username: \"".toList ++ c.app_user ++ "\"".toList,
        "    password: \"".toList ++ c.app_pass ++ "\"".toList,
        "    database: \"".toList ++ c.app_db ++ "\"".toList,
        "  parameters:".toList,
        "    unix_socket_directories: /var/run/postgresql".toList,
        "    ssl: \"on\"".toList,
        "    ssl_cert_file: \"".toList ++ c.certs_dir ++ "/server.crt\"".toList,
        "    ssl_key_file: \"".toList ++ c.certs_dir ++ "/server.key\"".toList,
        "    ssl_ca_file: \"".toList ++ c.certs_dir ++ "/root.crt\"".toList]) from rfl]
  rw [nested_skip_block _ _ _ _ _ _ _ _ (preAuth_no_auth c)]
  have e60 : "  authentication:".toList
      = List.replicate 2 ' ' ++ ("authentication".toList ++ [':']) := rfl
  rw [nested_enter _ _ _ _ _ _ _ _ _ _ e60 rfl]
  have e61 : "    replication:".toList
      = List.replicate 4 ' ' ++ "replication:".toList := rfl
  rw [nested_skip_outer _ _ _ _ _ _ _ _ _ e61 rfl (by decide)
    (by decide) (by decide)]
  have h62 : "      username: \"".toList ++ c.repl_user ++ "\"".toList
      = List.replicate 6 ' '
        ++ ("username".toList ++ ':' :: ' ' :: '"' :: (c.repl_user ++ ['"'])) := rfl
  rw [nested_skip_outer _ _ _ _ _ _ _ _ _ h62 rfl
    (prefix_mismatch _ _ _ (by decide)) (prefix_mismatch _ _ _ (by decide))
    (by decide)]
  have h63 : "      password: \"".toList ++ c.repl_pass ++ "\"".toList
      = List.replicate 6 ' '
        ++ ("password".toList ++ ':' :: ' ' :: '"' :: (c.repl_pass ++ ['"'])) := rfl
  rw [nested_skip_outer _ _ _ _ _ _ _ _ _ h63 rfl
    (prefix_mismatch _ _ _ (by decide)) (prefix_mismatch _ _ _ (by decide))
    (by decide)]
  have e64 : "    superuser:".toList
      = List.replicate 4 ' ' ++ ("superuser".toList ++ [':']) := rfl
  rw [nested_enter2 _ _ _ _ _ _ _ _ _ e64 rfl (by decide) (by decide)]
  have h65 : "      username: \"".toList ++ c.superuser ++ "\"".toList
      = List.replicate 6 ' '
        ++ ("username".toList ++ ':' :: ' ' :: '"' :: (c.superuser ++ ['"'])) := rfl
  rw [nested_skip_inner _ _ _ _ _ _ _ _ _ h65 rfl
    (prefix_mismatch _ _ _ (by decide)) (prefix_mismatch _ _ _ (by decide))
    (by decide) (by decide) (prefix_mismatch _ _ _ (by decide))]
  have h66 : "      password: \"".toList ++ c.superuser_pass ++ "\"".toList
      = List.replicate 6 ' '
        ++ ("password".toList ++ ':' :: ' ' :: '"' :: (c.superuser_pass ++ ['"'])) := rfl
  rw [nested_hit _ _ _ _ _ _ _ _ _ h66 rfl
    (prefix_mismatch _ _ _ (by decide)) (prefix_mismatch _ _ _ (by decide))
    (by decide) (by decide) (prefix_key_colon _ _)]
  exact parse_quoted_line _ _ (by decide) hv

theorem scan_app_user (c : Config) (hv : quoteClean c.app_user) :
    extractYamlGo "app_user".toList "username".toList
      (patroniYamlLines c) false 0 = some c.app_user := by
  rw [show patroniYamlLines c = preApp c
      ++ ("  app_user:".toList :: ["    username: \"".toList ++ c.app_user ++ "\"".toList,
        "    password: \"".toList ++ c.app_pass ++ "\"".toList,
        "    database: \"".toList ++ c.app_db ++ "\"".toList,
        "  parameters:".toList,
        "    unix_socket_directories: /var/run/postgresql".toList,
        "    ssl: \"on\"".toList,
        "    ssl_cert_file: \"".toList ++ c.certs_dir ++ "/server.crt\"".toList,
        "    ssl_key_file: \"".toList ++ c.certs_dir ++ "/server.key\"".toList,
        "    ssl_ca_file: \"".toList ++ c.certs_dir ++ "/root.crt\"".toList]) from rfl]
  rw [yaml_skip_block _ _ _ _ _ (preApp_no_app c)]
  have e67 : "  app_user:".toList
      = List.replicate 2 ' ' ++ ("app_user".toList ++ [':']) := rfl
  rw [yaml_enter _ _ _ _ _ _ _ e67 rfl]
  have h68 : "    username: \"".toList ++ c.app_user ++ "\"".toList
      = List.replicate 4 ' '
        ++ ("username".toList ++ ':' :: ' ' :: '"' :: (c.app_user ++ ['"'])) := rfl
  rw [yaml_hit _ _ _ _ _ _ _ h68 rfl
    (prefix_mismatch _ _ _ (by decide)) (by decide) (prefix_key_colon _ _)]
  exact parse_quoted_line _ _ (by decide) hv

theorem scan_app_pass (c : Config) (hv : quoteClean c.app_pass) :
    extractYamlGo "app_user".toList "password".toList
      (patroniYamlLines c) false 0 = some c.app_pass := by
  rw [show patroniYamlLines c = preApp c
      ++ ("  app_user:".toList :: ["    username: \"".toList ++ c.app_user ++ "\"".toList,
        "    password: \"".toList ++ c.app_pass ++ "\"".toList,
        "    database: \"".toList ++ c.app_db ++ "\"".toList,
        "  parameters:".toList,
        "    unix_socket_directories: /var/run/postgresql".toList,
        "    ssl: \"on\"".toList,
        "    ssl_cert_file: \"".toList ++ c.certs_dir ++ "/server.crt\"".toList,
        "    ssl_key_file: \"".toList ++ c.certs_dir ++ "/server.key\"".toList,
        "    ssl_ca_file: \"".toList ++ c.certs_dir ++ "/root.crt\"".toList]) from rfl]
  rw [yaml_skip_block _ _ _ _ _ (preApp_no_app c)]
  have e67 : "  app_user:".toList
      = List.replicate 2 ' ' ++ ("app_user".toList ++ [':']) := rfl
  rw [yaml_enter _ _ _ _ _ _ _ e67 rfl]
  have h68 : "    username: \"".toList ++ c.app_user ++ "\"".toList
      = List.replicate 4 ' '
        ++ ("username".toList ++ ':' :: ' ' :: '"' :: (c.app_user ++ ['"'])) := rfl
  rw [yaml_skip_inner _ _ _ _ _ _ _ h68 rfl
    (prefix_mismatch _ _ _ (by decide)) (by decide) (prefix_mismatch _ _ _ (by decide))]
  have h69 : "    password: \"".toList ++ c.app_pass ++ "\"".toList
      = List.replicate 4 ' '
        ++ ("password".toList ++ ':' :: ' ' :: '"' :: (c.app_pass ++ ['"'])) := rfl
  rw [yaml_hit _ _ _ _ _ _ _ h69 rfl
    (prefix_mismatch _ _ _ (by decide)) (by decide) (prefix_key_colon _ _)]
  exact parse_quoted_line _ _ (by decide) hv

theorem scan_app_db (c : Config) (hv : quoteClean c.app_db) :
    extractYamlGo "app_user".toList "database".toList
      (patroniYamlLines c) false 0 = some c.app_db := by
  rw [show patroniYamlLines c = preApp c
      ++ ("  app_user:".toList :: ["    username: \"".toList ++ c.app_user ++ "\"".toList,
        "    password: \"".toList ++ c.app_pass ++ "\"".toList,
        "    database: \"".toList ++ c.app_db ++ "\"".toList,
        "  parameters:".toList,
        "    unix_socket_directories: /var/run/postgresql".toList,
        "    ssl: \"on\"".toList,
        "    ssl_cert_file: \"".toList ++ c.certs_dir ++ "/server.crt\"".toList,
        "    ssl_key_file: \"".toList ++ c.certs_dir ++ "/server.key\"".toList,
        "    ssl_ca_file: \"".toList ++ c.certs_dir ++ "/root.crt\"".toList]) from rfl]
  rw [yaml_skip_block _ _ _ _ _ (preApp_no_app c)]
  have e67 : "  app_user:".toList
      = List.replicate 2 ' ' ++ ("app_user".toList ++ [':']) := rfl
  rw [yaml_enter _ _ _ _ _ _ _ e67 rfl]
  have h68 : "    username: \"".toList ++ c.app_user ++ "\"".toList
      = List.replicate 4 ' '
        ++ ("username".toList ++ ':' :: ' ' :: '"' :: (c.app_user ++ ['"'])) := rfl
  rw [yaml_skip_inner _ _ _ _ _ _ _ h68 rfl
    (prefix_mismatch _ _ _ (by decide)) (by decide) (prefix_mismatch _ _ _ (by decide))]
  have h69 : "    password: \"".toList ++ c.app_pass ++ "\"".toList
      = List.replicate 4 ' '
        ++ ("password".toList ++ ':' :: ' ' :: '"' :: (c.app_pass ++ ['"'])) := rfl
  rw [yaml_skip_inner _ _ _ _ _ _ _ h69 rfl
    (prefix_mismatch _ _ _ (by decide)) (by decide) (prefix_mismatch _ _ _ (by decide))]
  have h70 : "    database: \"".toList ++ c.app_db ++ "\"".toList
      = List.replicate 4 ' '
        ++ ("database".toList ++ ':' :: ' ' :: '"' :: (c.app_db ++ ['"'])) := rfl
  rw [yaml_hit _ _ _ _ _ _ _ h70 rfl
    (prefix_mismatch _ _ _ (by decide)) (by decide) (prefix_key_colon _ _)]
  exact parse_quoted_line _ _ (by decide) hv


/-- Concrete bundle on which the literal round-trip claim fails: the
replication password ends in a double quote. -/
def cfgBad : Config :=
  { scope := "s".toList, name := "n".toList,
    connect_address := "h".toList, etcd_hosts := "e".toList,
    superuser := "su".toList, superuser_pass := "sp".toList,
    repl_user := "ru".toList, repl_pass := "x\"".toList,
    app_user := "au".toList, app_pass := "ap".toList,
    app_db := "db".toList, data_dir := "d".toList,
    certs_dir := "crt".toList, ttl := "40".toList,
    loop_wait := "10".toList, retry_timeout := "10".toList,
    health_check_interval := 0, health_check_timeout := 0,
    max_failures := 0, startup_grace_period := 0,
    max_startup_timeout := 0, adopt_existing_data := false }

/-- Concrete clean bundle for which the round-trip does hold. -/
def cfgGood : Config :=
  { scope := "pg".toList, name := "n1".toList,
    connect_address := "host1".toList, etcd_hosts := "e1:2379".toList,
    superuser := "postgres".toList, superuser_pass := "spw".toList,
    repl_user := "replicator".toList, repl_pass := "rpw".toList,
    app_user := "railway".toList, app_pass := "apw".toList,
    app_db := "railway".toList, data_dir := "/var/lib/pg".toList,
    certs_dir := "/certs".toList, ttl := "40".toList,
    loop_wait := "10".toList, retry_timeout := "10".toList,
    health_check_interval := 5, health_check_timeout := 5,
    max_failures := 3, startup_grace_period := 60,
    max_startup_timeout := 300, adopt_existing_data := false }

/-- **C7** (corrected). For a credentials bundle whose rendered fields
contain no line-break characters and whose seven credential values do
not begin or end with a quote character, rendering the Patroni YAML
configuration (`generate_patroni_config`) and re-extracting the fields
with the YAML parser (`read_credentials`, via `extract_nested_value` /
`extract_yaml_value` / `parse_yaml_value`) returns exactly the original
bundle. As literally stated — for *every* bundle — the claim is false:
`parse_yaml_value` strips *runs* of quotes at both ends of the value, so
a value that itself starts or ends with `"` or `'` comes back altered;
see the counterexample. -/
theorem credentials_roundtrip (c : Config) (hc : cleanConfig c)
    (hq : quoteClean c.repl_user ∧ quoteClean c.repl_pass
      ∧ quoteClean c.superuser ∧ quoteClean c.superuser_pass
      ∧ quoteClean c.app_user ∧ quoteClean c.app_pass
      ∧ quoteClean c.app_db) :
    read_credentials (generate_patroni_config c)
      = .ok { repl_user := c.repl_user, repl_pass := c.repl_pass,
              superuser := c.superuser,
              superuser_pass := c.superuser_pass,
              app_user := c.app_user, app_pass := c.app_pass,
              app_db := c.app_db } := by
  obtain ⟨hq1, hq2, hq3, hq4, hq5, hq6, hq7⟩ := hq
  have hrl := rustLines_patroni c hc
  have e1 : extract_nested_value (generate_patroni_config c)
      "authentication".toList "replication".toList "username".toList
      = some c.repl_user := by
    unfold extract_nested_value
    rw [hrl]
    exact scan_repl_user c hq1
  have e2 : extract_nested_value (generate_patroni_config c)
      "authentication".toList "replication".toList "password".toList
      = some c.repl_pass := by
    unfold extract_nested_value
    rw [hrl]
    exact scan_repl_pass c hq2
  have e3 : extract_nested_value (generate_patroni_config c)
      "authentication".toList "superuser".toList "username".toList
      = some c.superuser := by
    unfold extract_nested_value
    rw [hrl]
    exact scan_superuser c hq3
  have e4 : extract_nested_value (generate_patroni_config c)
      "authentication".toList "superuser".toList "password".toList
      = some c.superuser_pass := by
    unfold extract_nested_value
    rw [hrl]
    exact scan_superuser_pass c hq4
  have e5 : extract_yaml_value (generate_patroni_config c)
      "app_user".toList "username".toList = some c.app_user := by
    unfold extract_yaml_value
    rw [hrl]
    exact scan_app_user c hq5
  have e6 : extract_yaml_value (generate_patroni_config c)
      "app_user".toList "password".toList = some c.app_pass := by
    unfold extract_yaml_value
    rw [hrl]
    exact scan_app_pass c hq6
  have e7 : extract_yaml_value (generate_patroni_config c)
      "app_user".toList "database".toList = some c.app_db := by
    unfold extract_yaml_value
    rw [hrl]
    exact scan_app_db c hq7
  unfold read_credentials
  simp only [e1, e2, e3, e4, e5, e6, e7, Option.getD_some]

/-- **C7, counterexample to the literal claim**: with the replication
password `x"` — a value ending in a double quote — the round trip
returns `x` instead: `parse_yaml_value`'s quote stripping removes the
whole trailing quote run. -/
theorem credentials_roundtrip_cex :
    read_credentials (generate_patroni_config cfgBad)
      = .ok { repl_user := "ru".toList, repl_pass := "x".toList,
              superuser := "su".toList, superuser_pass := "sp".toList,
              app_user := "au".toList, app_pass := "ap".toList,
              app_db := "db".toList }
    ∧ "x".toList ≠ cfgBad.repl_pass :=
  ⟨rfl, by decide⟩

/-- Witness for C7: a concrete clean bundle satisfies the hypotheses and
round-trips exactly. -/
theorem credentials_roundtrip_witness :
    (cleanConfig cfgGood
      ∧ (quoteClean cfgGood.repl_user ∧ quoteClean cfgGood.repl_pass
        ∧ quoteClean cfgGood.superuser ∧ quoteClean cfgGood.superuser_pass
        ∧ quoteClean cfgGood.app_user ∧ quoteClean cfgGood.app_pass
        ∧ quoteClean cfgGood.app_db))
    ∧ read_credentials (generate_patroni_config cfgGood)
      = .ok { repl_user := cfgGood.repl_user,
              repl_pass := cfgGood.repl_pass,
              superuser := cfgGood.superuser,
              superuser_pass := cfgGood.superuser_pass,
              app_user := cfgGood.app_user, app_pass := cfgGood.app_pass,
              app_db := cfgGood.app_db } :=
  ⟨⟨by decide, by decide, by decide, by decide, by decide, by decide,
      by decide, by decide⟩,
    credentials_roundtrip cfgGood (by decide)
      ⟨by decide, by decide, by decide, by decide, by decide, by decide,
        by decide⟩⟩

end Patroni


namespace Haproxy

/-! ## Load-balancer synthesizer
(`src/haproxy/src/nodes.rs`, `src/haproxy/src/config.rs`,
`src/haproxy/src/template.rs`) -/

/-- `nodes.rs::PostgresNode`. -/
structure PostgresNode where
  name : Str
  host : Str
  pg_port : Str
  patroni_port : Str
deriving DecidableEq

/-- One entry of `nodes.rs::parse_nodes`: exactly three colon-separated
fields; the short name is the hostname's first dot-segment
(`host.split('.').next().unwrap_or(&host)`). -/
def parseNode (node : Str) : Except Str PostgresNode :=
  match split ':' node with
  | [host, pgPort, patroniPort] =>
    .ok { name := (split '.' host).headD host
          host := host
          pg_port := pgPort
          patroni_port := patroniPort }
  | _ => .error node

/-- `nodes.rs::parse_nodes`: any entry with a wrong field count is a
fatal configuration error (`collect` over `Result`). -/
def parse_nodes (postgres_nodes : Str) : Except Str (List PostgresNode) :=
  collectE parseNode (split ',' postgres_nodes)

/-- `config.rs::Config` of the HAProxy crate. -/
structure Config where
  postgres_nodes : Str
  max_conn : Str
  timeout_connect : Str
  timeout_client : Str
  timeout_server : Str
  check_interval : Str

/-- The per-node closure of `template.rs::generate_server_entries`:
single-node mode uses a plain TCP check on the PostgreSQL port,
multi-node mode checks the Patroni agent port. -/
def serverEntryLine (single_node_mode : Bool) (node : PostgresNode) : Str :=
  if single_node_mode then
    "    server ".toList ++ node.name ++ " ".toList ++ node.host
      ++ ":".toList ++ node.pg_port
      ++ " check resolvers railway resolve-prefer ipv4".toList
  else
    "    server ".toList ++ node.name ++ " ".toList ++ node.host
      ++ ":".toList ++ node.pg_port ++ " check port ".toList
      ++ node.patroni_port
      ++ " resolvers railway resolve-prefer ipv4".toList

/-- `template.rs::generate_server_entries`: one `server` line per node,
joined with newlines. -/
def generate_server_entries (nodes : List PostgresNode)
    (single_node_mode : Bool) : Str :=
  joinSep "\n".toList (nodes.map (serverEntryLine single_node_mode))

/-- `template.rs::generate_primary_backend`. -/
def generate_primary_backend (config : Config) (server_entries : Str)
    (single_node_mode : Bool) : Str :=
  if single_node_mode then
    "backend postgresql_primary_backend\n    default-server inter ".toList
      ++ config.check_interval
      ++ " fall 3 rise 2 on-marked-down shutdown-sessions\n".toList
      ++ server_entries
  else
    "backend postgresql_primary_backend\n    option httpchk\n    http-check send meth GET uri /primary\n    http-check expect status 200\n    default-server inter ".toList
      ++ config.check_interval
      ++ " fall 3 rise 2 on-marked-down shutdown-sessions\n".toList
      ++ server_entries

/-- `template.rs::generate_replica_backend`. -/
def generate_replica_backend (config : Config) (server_entries : Str)
    (single_node_mode : Bool) : Str :=
  if single_node_mode then
    "backend postgresql_replicas_backend\n    balance roundrobin\n    default-server inter ".toList
      ++ config.check_interval
      ++ " fall 3 rise 2 on-marked-down shutdown-sessions\n".toList
      ++ server_entries
  else
    "backend postgresql_replicas_backend\n    balance roundrobin\n    option httpchk\n    http-check send meth GET uri /replica\n    http-check expect status 200\n    default-server inter ".toList
      ++ config.check_interval
      ++ " fall 3 rise 2 on-marked-down shutdown-sessions\n".toList
      ++ server_entries

/-- `template.rs::generate_config`: the full rendered configuration. -/
def generate_config (config : Config) (nodes : List PostgresNode) : Str :=
  let single_node_mode := nodes.length == 1
  let server_entries := generate_server_entries nodes single_node_mode
  let primary_backend :=
    generate_primary_backend config server_entries single_node_mode
  let replica_backend :=
    generate_replica_backend config server_entries single_node_mode
  "global\n    maxconn ".toList ++ config.max_conn
    ++ "\n    log stdout format raw local0\n\ndefaults\n    log global\n    mode tcp\n    retries 3\n    timeout connect ".toList
    ++ config.timeout_connect
    ++ "\n    timeout client ".toList ++ config.timeout_client
    ++ "\n    timeout server ".toList ++ config.timeout_server
    ++ "\n    timeout check 5s\n\nresolvers railway\n    parse-resolv-conf\n    resolve_retries 3\n    timeout resolve 1s\n    timeout retry   1s\n    hold other      10s\n    hold refused    10s\n    hold nx         10s\n    hold timeout    10s\n    hold valid      10s\n    hold obsolete   10s\n\n# Stats page for monitoring\nlisten stats\n    bind *:8404\n    mode http\n    stats enable\n    stats uri /stats\n    stats refresh 10s\n\n# Primary PostgreSQL (read-write)\nfrontend postgresql_primary\n    bind *:5432\n    default_backend postgresql_primary_backend\n\n".toList
    ++ primary_backend
    ++ "\n\n# Replica PostgreSQL (read-only)\nfrontend postgresql_replicas\n    bind *:5433\n    default_backend postgresql_replicas_backend\n\n".toList
    ++ replica_backend
    ++ "\n".toList

theorem infix_append_right {p a : Str} (b : Str) (h : p <:+: a) :
    p <:+: a ++ b :=
  h.trans (List.prefix_append a b).isInfix

theorem infix_append_left {p b : Str} (a : Str) (h : p <:+: b) :
    p <:+: a ++ b :=
  h.trans (List.suffix_append a b).isInfix

theorem infix_joinSep (sep : Str) {α : Type} (f : α → Str) :
    ∀ (l : List α) (a : α), a ∈ l → f a <:+: joinSep sep (l.map f) := by
  intro l
  induction l with
  | nil => intro a ha; simp at ha
  | cons y ys ih =>
    intro a ha
    cases ys with
    | nil =>
      simp at ha
      subst ha
      exact List.infix_refl _
    | cons z zs =>
      rcases List.mem_cons.mp ha with h | h
      · subst h
        show f a <:+: f a ++ sep ++ joinSep sep ((z :: zs).map f)
        rw [List.append_assoc]
        exact (List.prefix_append _ _).isInfix
      · show f a <:+: f y ++ sep ++ joinSep sep ((z :: zs).map f)
        exact infix_append_left _ (ih a h)

theorem parseNode_ok_name (e : Str) (nd : PostgresNode)
    (h : parseNode e = .ok nd) :
    nd.name = (split '.' nd.host).headD nd.host := by
  unfold parseNode at h
  split at h
  · rename_i host pgPort patroniPort heq
    simp only [Except.ok.injEq] at h
    subst h
    rfl
  · exact Except.noConfusion h

/-- The single-node example of the specification (S4):
`POSTGRES_NODES=only.example.internal:5432:8008` with default tuning. -/
def s4Config : Config :=
  { postgres_nodes := "only.example.internal:5432:8008".toList
    max_conn := "1000".toList
    timeout_connect := "10s".toList
    timeout_client := "30m".toList
    timeout_server := "30m".toList
    check_interval := "3s".toList }

/-- The parsed S4 node list. -/
def s4Nodes : List PostgresNode :=
  [{ name := "only".toList
     host := "only.example.internal".toList
     pg_port := "5432".toList
     patroni_port := "8008".toList }]

/-- C8: with two or more nodes, the rendered configuration contains one
`server` line per node — named by the hostname's first dot-segment,
routing to the node's pg port, health-checking the agent port — and both
backends carry the HTTP check stanza (`GET /primary` resp. `/replica`
expecting 200).  With a single node, the server line is the plain TCP
check on the pg port with no separate check port, both backends are the
check-stanza-free template, and on the specification's single-node
example the rendered backends contain neither `option httpchk` nor
a ` check port `. -/
theorem server_entries_shape (cfg : Config) (s : Str)
    (nodes : List PostgresNode) (hp : parse_nodes s = .ok nodes) :
    (∀ nd ∈ nodes, nd.name = (split '.' nd.host).headD nd.host)
    ∧ (2 ≤ nodes.length →
        (∀ nd ∈ nodes,
          ("    server ".toList ++ nd.name ++ " ".toList ++ nd.host
            ++ ":".toList ++ nd.pg_port ++ " check port ".toList
            ++ nd.patroni_port
            ++ " resolvers railway resolve-prefer ipv4".toList)
            <:+: generate_config cfg nodes)
        ∧ ("    option httpchk\n    http-check send meth GET uri /primary\n    http-check expect status 200\n".toList
            <:+: generate_primary_backend cfg
              (generate_server_entries nodes false) false)
        ∧ ("    option httpchk\n    http-check send meth GET uri /replica\n    http-check expect status 200\n".toList
            <:+: generate_replica_backend cfg
              (generate_server_entries nodes false) false))
    ∧ (∀ nd, nodes = [nd] →
        generate_server_entries nodes true
          = "    server ".toList ++ nd.name ++ " ".toList ++ nd.host
            ++ ":".toList ++ nd.pg_port
            ++ " check resolvers railway resolve-prefer ipv4".toList
        ∧ generate_primary_backend cfg (generate_server_entries nodes true)
            true
          = "backend postgresql_primary_backend\n    default-server inter ".toList
            ++ cfg.check_interval
            ++ " fall 3 rise 2 on-marked-down shutdown-sessions\n".toList
            ++ generate_server_entries nodes true
        ∧ generate_replica_backend cfg (generate_server_entries nodes true)
            true
          = "backend postgresql_replicas_backend\n    balance roundrobin\n    default-server inter ".toList
            ++ cfg.check_interval
            ++ " fall 3 rise 2 on-marked-down shutdown-sessions\n".toList
            ++ generate_server_entries nodes true)
    ∧ (¬ ("option httpchk".toList
            <:+: generate_primary_backend s4Config
              (generate_server_entries s4Nodes true) true)
        ∧ ¬ ("option httpchk".toList
            <:+: generate_replica_backend s4Config
              (generate_server_entries s4Nodes true) true)
        ∧ ¬ (" check port ".toList
            <:+: generate_server_entries s4Nodes true)) := by
  refine ⟨?_, ?_, ?_,
    not_infix_of_containsStr_false _ _ rfl,
    not_infix_of_containsStr_false _ _ rfl,
    not_infix_of_containsStr_false _ _ rfl⟩
  · intro nd hnd
    obtain ⟨e, he, hent⟩ := collectE_mem parseNode (split ',' s) nodes hp nd hnd
    exact parseNode_ok_name e nd hent
  · intro hlen
    have hsingle : (nodes.length == 1) = false := by
      simp only [beq_eq_false_iff_ne]
      omega
    refine ⟨?_, ?_, ?_⟩
    · intro nd hnd
      have he : serverEntryLine false nd
          = "    server ".toList ++ nd.name ++ " ".toList ++ nd.host
            ++ ":".toList ++ nd.pg_port ++ " check port ".toList
            ++ nd.patroni_port
            ++ " resolvers railway resolve-prefer ipv4".toList := rfl
      have hline : ("    server ".toList ++ nd.name ++ " ".toList ++ nd.host
          ++ ":".toList ++ nd.pg_port ++ " check port ".toList
          ++ nd.patroni_port
          ++ " resolvers railway resolve-prefer ipv4".toList)
          <:+: generate_server_entries nodes false := by
        rw [← he]
        unfold generate_server_entries
        exact infix_joinSep "\n".toList (serverEntryLine false) nodes nd hnd
      have hprim : ("    server ".toList ++ nd.name ++ " ".toList ++ nd.host
          ++ ":".toList ++ nd.pg_port ++ " check port ".toList
          ++ nd.patroni_port
          ++ " resolvers railway resolve-prefer ipv4".toList)
          <:+: generate_primary_backend cfg
            (generate_server_entries nodes false) false := by
        unfold generate_primary_backend
        simp only [if_neg Bool.false_ne_true]
        exact infix_append_left _ hline
      unfold generate_config
      simp only [hsingle]
      exact infix_append_right _ (infix_append_right _ (infix_append_right _
        (infix_append_left _ hprim)))
    · unfold generate_primary_backend
      simp only [if_neg Bool.false_ne_true]
      refine infix_append_right _ (infix_append_right _
        (infix_append_right _ ?_))
      exact ( containsStr_iff_infix _ _).mp rfl
    · unfold generate_replica_backend
      simp only [if_neg Bool.false_ne_true]
      refine infix_append_right _ (infix_append_right _
        (infix_append_right _ ?_))
      exact ( containsStr_iff_infix _ _).mp rfl
  · intro nd hnd
    subst hnd
    refine ⟨rfl, rfl, rfl⟩

/-- Witness for C8 at the specification's two-node and single-node
example descriptors. -/
theorem server_entries_shape_witness :
    parse_nodes
        "postgres-1.example.internal:5432:8008,postgres-2.example.internal:5432:8008".toList
      = .ok
        [{ name := "postgres-1".toList
           host := "postgres-1.example.internal".toList
           pg_port := "5432".toList
           patroni_port := "8008".toList },
         { name := "postgres-2".toList
           host := "postgres-2.example.internal".toList
           pg_port := "5432".toList
           patroni_port := "8008".toList }]
    ∧ ("    option httpchk\n    http-check send meth GET uri /primary\n    http-check expect status 200\n".toList
        <:+: generate_primary_backend s4Config
          (generate_server_entries
            [{ name := "postgres-1".toList
               host := "postgres-1.example.internal".toList
               pg_port := "5432".toList
               patroni_port := "8008".toList },
             { name := "postgres-2".toList
               host := "postgres-2.example.internal".toList
               pg_port := "5432".toList
               patroni_port := "8008".toList }] false) false)
    ∧ generate_server_entries s4Nodes true
      = "    server ".toList ++ "only".toList ++ " ".toList
        ++ "only.example.internal".toList ++ ":".toList ++ "5432".toList
        ++ " check resolvers railway resolve-prefer ipv4".toList := by
  refine ⟨rfl, ?_, ?_⟩
  · exact ((server_entries_shape s4Config
      "postgres-1.example.internal:5432:8008,postgres-2.example.internal:5432:8008".toList
      [{ name := "postgres-1".toList
         host := "postgres-1.example.internal".toList
         pg_port := "5432".toList
         patroni_port := "8008".toList },
       { name := "postgres-2".toList
         host := "postgres-2.example.internal".toList
         pg_port := "5432".toList
         patroni_port := "8008".toList }] rfl).2.1 (by decide)).2.1
  · exact ((server_entries_shape s4Config
      "only.example.internal:5432:8008".toList s4Nodes rfl).2.2.1
      _ rfl).1

end Haproxy
